import Mathlib

/-!
Verification of the Tichu rule engine (shallow embedding).

The definitions below are transcribed from the JavaScript sources of the
repository:

* `backend/game/deck.js` (card values and points, and the combination
  validator and comparator that the same file carries after its deck
  helpers),
* `backend/game/specialCards.js`, `backend/game/turnManagement.js`,
* `backend/game/moveHandler.js` (the `makeMove` entry point together with
  the trick manager bundled in the same file),
* the scoring module (`handlePlayerWin`),
* `backend/game/gameState.js` (`completeExchange`, `getPlayerView`).

JavaScript objects become flat structures with empty-string / `none`
defaults for absent fields; in-place mutation becomes explicit state
threading; `findIndex` results become `Option Nat`; nullable strings
become `Option String`.  The fractional Phoenix values (1.5, 13.5, ...)
are exact halves, represented in `ℚ`.  The round re-initialisation that
the source performs with a fresh shuffled deck is injected as a function
parameter `nr` (the only randomness of the engine), exactly where the
source calls `initializeGame`.
-/

set_option maxHeartbeats 4000000
set_option maxRecDepth 8000

namespace Tichu

/-- A card as the JS objects carry it: standard cards have `suit`/`rank`,
special cards have `name`; absent string fields are `""`.  The
`phoenixValue` field is written onto a Phoenix card when it is played as a
single. -/
structure Card where
  type : String := ""
  suit : String := ""
  rank : String := ""
  name : String := ""
  phoenixValue : Option ℚ := none
deriving DecidableEq, Repr

/-- Builds a standard card. -/
def stdCard (s r : String) : Card := { type := "standard", suit := s, rank := r }

/-- Builds a special card (mahjong, dog, phoenix, dragon). -/
def specCard (n : String) : Card := { type := "special", name := n }

/-- JS `card.rank || card.name` (an absent `rank` is the empty string,
which is falsy, exactly like `undefined`). -/
def rankOr (c : Card) : String := if c.rank = "" then c.name else c.rank

/-- deck.js `getCardValue`. -/
def getCardValue (rank : String) : ℚ :=
  if rank = "2" then 2 else if rank = "3" then 3 else if rank = "4" then 4
  else if rank = "5" then 5 else if rank = "6" then 6 else if rank = "7" then 7
  else if rank = "8" then 8 else if rank = "9" then 9 else if rank = "10" then 10
  else if rank = "J" then 11 else if rank = "Q" then 12 else if rank = "K" then 13
  else if rank = "A" then 14 else 0

/-- deck.js `getCardPoints`. -/
def getCardPoints (c : Card) : Int :=
  if c.type = "special" then
    if c.name = "dragon" then 25 else if c.name = "phoenix" then -25 else 0
  else if c.rank = "5" then 5
  else if c.rank = "10" ∨ c.rank = "K" then 10
  else 0

/-- The result object of `validateCombination` and its helpers: one flat
record for every field any of the validators writes. -/
structure Combination where
  valid : Bool := false
  type : String := ""
  cards : List Card := []
  rank : String := ""
  hasPhoenix : Bool := false
  numPairs : Nat := 0
  highestRank : String := ""
  length : Nat := 0
  hasMahJong : Bool := false
  bombType : String := ""
  phoenixValue : Option ℚ := none
  error : String := ""
deriving DecidableEq, Repr

/-- An invalid result carrying an error message (the JS objects
`{ valid: false, error: ... }`; plain `{ valid: false }` is `invalidC ""`). -/
def invalidC (e : String) : Combination := { valid := false, error := e }

/-- combinations `validatePair`. -/
def validatePair (cards : List Card) : Combination :=
  match cards with
  | [c1, c2] =>
    if rankOr c1 = rankOr c2 ∨ (c1.type = "special" ∧ c2.type = "special") then
      { valid := true, type := "pair", cards := cards, rank := rankOr c1 }
    else if cards.any (fun c => c.name == "phoenix") then
      match cards.find? (fun c => c.name != "phoenix") with
      | some other =>
        { valid := true, type := "pair", cards := cards, rank := rankOr other,
          hasPhoenix := true }
      | none => invalidC ""
    else invalidC "Not a valid pair"
  | _ => invalidC ""

/-- combinations `validateTriple`. -/
def validateTriple (cards : List Card) : Combination :=
  if cards.length ≠ 3 then invalidC "" else
  let ranks := (cards.map rankOr).filter (fun r => r ≠ "phoenix")
  let phoenixCount := (cards.filter (fun c => c.name == "phoenix")).length
  if ranks = [] then invalidC "" else
  let uniqueSize := ranks.eraseDups.length
  if uniqueSize = 1 ∨ (uniqueSize = 1 ∧ phoenixCount = 1) then
    { valid := true, type := "triple", cards := cards, rank := ranks.headD "" }
  else invalidC "Not a valid triple"

/-- Insertion into an ascending list of rationals (for the JS numeric
`sort((a, b) => a - b)`). -/
def insertAscQ (x : ℚ) : List ℚ → List ℚ
  | [] => [x]
  | y :: ys => if x ≤ y then x :: y :: ys else y :: insertAscQ x ys

/-- Ascending numeric sort, the effect of the JS `sort((a, b) => a - b)`. -/
def sortAscQ (l : List ℚ) : List ℚ := l.foldr insertAscQ []

/-- Maximum of a list of rationals with 0 for the empty list (the empty
case is never hit by the callers below). -/
def listMaxQ (l : List ℚ) : ℚ :=
  match l with
  | [] => 0
  | x :: xs => xs.foldl max x

/-- Increments the count of `k` in an insertion-ordered association list
(the JS `rankGroups` object). -/
def bumpCount (l : List (String × Nat)) (k : String) : List (String × Nat) :=
  match l with
  | [] => [(k, 1)]
  | (k', n) :: rest => if k' = k then (k', n + 1) :: rest else (k', n) :: bumpCount rest k

/-- Checks that adjacent values each step by exactly one (the JS
`values[i] !== values[i-1] + 1` loop). -/
def consecutiveQ : List ℚ → Bool
  | [] => true
  | [_] => true
  | x :: y :: rest => (y == x + 1) && consecutiveQ (y :: rest)

/-- combinations `validateSequenceOfPairs`. -/
def validateSequenceOfPairs (cards : List Card) : Combination :=
  if cards.length < 4 ∨ cards.length % 2 ≠ 0 then invalidC "" else
  let numPairs := cards.length / 2
  let rankGroups := cards.foldl (fun groups card =>
      if card.type = "special" ∧ card.name ≠ "phoenix" then groups
      else bumpCount groups (rankOr card)) []
  let ranks := rankGroups.map Prod.fst
  if rankGroups.any (fun g => g.snd ≠ 2) then
    invalidC "Sequence of pairs cannot have 3 of a kind"
  else if ranks.length ≠ numPairs then invalidC ""
  else
    let rankValues := sortAscQ ((ranks.filter (fun r => r ≠ "phoenix")).map getCardValue)
    let hasPhoenix := ranks.contains "phoenix"
    if hasPhoenix ∧ rankValues.length ≠ numPairs - 1 then invalidC ""
    else if 2 ≤ rankValues.length ∧ ¬ consecutiveQ rankValues then
      invalidC "Pairs must be of adjacent values"
    else
      let highestVal := listMaxQ rankValues
      let highestRank :=
        match ranks.find? (fun r => getCardValue r == highestVal) with
        | some r => r
        | none => ranks.getLastD ""
      { valid := true, type := "sequence-of-pairs", cards := cards,
        numPairs := numPairs, highestRank := highestRank }

/-- combinations `validateFullHouse`. -/
def validateFullHouse (cards : List Card) : Combination :=
  if cards.length ≠ 5 then invalidC "" else
  let ranks := (cards.map rankOr).filter (fun r => r ≠ "phoenix")
  let phoenixCount := (cards.filter (fun c => c.name == "phoenix")).length
  let rankCounts := ranks.foldl bumpCount []
  let counts := sortAscQ (rankCounts.map (fun g => (g.snd : ℚ)))
  match counts.reverse with
  | [a, b] =>
    if (a = 3 ∧ b = 2) ∨ (a = 2 ∧ b = 2 ∧ phoenixCount = 1) then
      { valid := true, type := "fullhouse", cards := cards }
    else invalidC ""
  | _ => invalidC ""

/-- combinations `validateStraight`. -/
def validateStraight (cards : List Card) : Combination :=
  if cards.length < 5 then invalidC "" else
  if cards.any (fun c => c.name == "dragon") then invalidC "" else
  let standardCards := cards.filter (fun c =>
    c.type = "standard" ∨ c.name = "phoenix" ∨ c.name = "mahjong")
  if standardCards.length < 5 then invalidC "" else
  let hasMahJong := cards.any (fun c => c.name == "mahjong")
  let values := sortAscQ (standardCards.filterMap (fun c =>
    if c.name = "phoenix" then none
    else if c.name = "mahjong" then some 1
    else some (getCardValue c.rank)))
  if ¬ consecutiveQ values then invalidC ""
  else { valid := true, type := "straight", cards := cards,
         length := cards.length, hasMahJong := hasMahJong }

/-- combinations `validateBomb` (four of a kind).  Note that the source
filters the Phoenix out of the rank list before the uniqueness test. -/
def validateBomb (cards : List Card) : Combination :=
  if cards.length ≠ 4 then invalidC "" else
  let ranks := (cards.map rankOr).filter (fun r => r ≠ "phoenix")
  if ranks.eraseDups.length = 1 then
    { valid := true, type := "bomb", cards := cards, rank := ranks.headD "",
      bombType := "four-of-a-kind" }
  else invalidC ""

/-- combinations `validateStraightFlush`. -/
def validateStraightFlush (cards : List Card) : Combination :=
  if cards.length < 5 then invalidC "" else
  if cards.any (fun c => c.name == "phoenix") then invalidC "" else
  let suits := (cards.filter (fun c => c.type = "standard")).map Card.suit
  if suits = [] then invalidC "" else
  if suits.eraseDups.length ≠ 1 then invalidC "" else
  let straight := validateStraight cards
  if straight.valid then
    { valid := true, type := "bomb", cards := cards,
      bombType := "straight-flush", length := cards.length }
  else invalidC ""

/-- combinations `validateCombination`: the dispatch over card counts, in
source order (sequence of pairs, full house, four-of-a-kind bomb,
straight flush, straight). -/
def validateCombination (cards : List Card) : Combination :=
  if cards = [] then invalidC "No cards provided" else
  if cards.length = 1 then { valid := true, type := "single", cards := cards } else
  if cards.length = 2 then validatePair cards else
  if cards.length = 3 then validateTriple cards else
  let afterSop :=
    if 4 ≤ cards.length ∧ cards.length % 2 = 0 then validateSequenceOfPairs cards
    else invalidC ""
  if afterSop.valid then afterSop else
  let afterFh := if cards.length = 5 then validateFullHouse cards else invalidC ""
  if afterFh.valid then afterFh else
  let afterBomb := if cards.length = 4 then validateBomb cards else invalidC ""
  if afterBomb.valid then afterBomb else
  let afterSf := if 5 ≤ cards.length then validateStraightFlush cards else invalidC ""
  if afterSf.valid then afterSf else
  let afterStraight := if 5 ≤ cards.length then validateStraight cards else invalidC ""
  if afterStraight.valid then afterStraight else
  invalidC "Invalid combination"

/-- combinations `getSpecialValue` (Phoenix is handled separately by
`compareSingles`). -/
def getSpecialValue (name : String) : ℚ :=
  if name = "mahjong" then 1 else if name = "dog" then 0
  else if name = "dragon" then 16 else 0

/-- combinations `compareSingles`. -/
def compareSingles (card1 card2 : Card) : Int :=
  let val1 : ℚ :=
    if card1.name = "phoenix" then
      match card1.phoenixValue with
      | some v => v
      | none => 1.5
    else if card1.type = "special" then getSpecialValue card1.name
    else getCardValue card1.rank
  let val2 : ℚ :=
    if card2.name = "phoenix" then
      match card2.phoenixValue with
      | some v => v
      | none => 1.5
    else if card2.type = "special" then getSpecialValue card2.name
    else getCardValue card2.rank
  if val1 > val2 then 1 else if val1 < val2 then -1 else 0

/-- combinations `compareRanks` (JS `getCardValue(r) || getSpecialValue(...)`:
a 0 card value falls through to the special-card table). -/
def compareRanks (rank1 rank2 : String) : Int :=
  let val1 := if getCardValue rank1 = 0 then getSpecialValue rank1 else getCardValue rank1
  let val2 := if getCardValue rank2 = 0 then getSpecialValue rank2 else getCardValue rank2
  if val1 > val2 then 1 else if val1 < val2 then -1 else 0

/-- combinations `compareStraights` (highest standard card decides). -/
def compareStraights (cards1 cards2 : List Card) : Int :=
  let high1 := listMaxQ ((cards1.filter (fun c => c.type = "standard")).map (fun c => getCardValue c.rank))
  let high2 := listMaxQ ((cards2.filter (fun c => c.type = "standard")).map (fun c => getCardValue c.rank))
  if high1 > high2 then 1 else if high1 < high2 then -1 else 0

/-- combinations `compareFullHouses`: the source carries a TODO and always
returns 0. -/
def compareFullHouses (cards1 cards2 : List Card) : Int :=
  let _ := cards1
  let _ := cards2
  0

/-- combinations `compareCombinations` (JS returns 1 / 0 / -1 or `null`;
`null` becomes `none`). -/
def compareCombinations (combo1 combo2 : Combination) : Option Int :=
  if combo1.type = "bomb" ∧ combo2.type ≠ "bomb" then some 1 else
  if combo2.type = "bomb" ∧ combo1.type ≠ "bomb" then some (-1) else
  if combo1.type = "bomb" ∧ combo2.type = "bomb" then
    if combo1.bombType = "straight-flush" ∧ combo2.bombType = "four-of-a-kind" then some 1
    else if combo2.bombType = "straight-flush" ∧ combo1.bombType = "four-of-a-kind" then some (-1)
    else if combo1.bombType = "four-of-a-kind" ∧ combo2.bombType = "four-of-a-kind" then
      some (compareRanks combo1.rank combo2.rank)
    else if combo1.bombType = "straight-flush" ∧ combo2.bombType = "straight-flush" then
      if combo1.length > combo2.length then some 1
      else if combo1.length < combo2.length then some (-1)
      else
        let high1 := listMaxQ ((combo1.cards.filter (fun c => c.type = "standard")).map (fun c => getCardValue c.rank))
        let high2 := listMaxQ ((combo2.cards.filter (fun c => c.type = "standard")).map (fun c => getCardValue c.rank))
        some (if high1 > high2 then 1 else if high1 < high2 then -1 else 0)
    else none
  else
  if combo1.type ≠ combo2.type then none else
  if combo1.type = "single" then
    some (compareSingles (combo1.cards.headD {}) (combo2.cards.headD {}))
  else if combo1.type = "pair" ∨ combo1.type = "triple" then
    some (compareRanks combo1.rank combo2.rank)
  else if combo1.type = "sequence-of-pairs" then
    if combo1.numPairs ≠ combo2.numPairs then none
    else some (compareRanks combo1.highestRank combo2.highestRank)
  else if combo1.type = "straight" then
    if combo1.length ≠ combo2.length then none
    else some (compareStraights combo1.cards combo2.cards)
  else if combo1.type = "fullhouse" then
    some (compareFullHouses combo1.cards combo2.cards)
  else none

/-- A trick entry as far as `getPhoenixValue` needs it comes from the
`currentTrick` plays; the structure is declared further below, so the
helper is stated over the card lists of the plays. -/
def phoenixHighest (trickCards : List (List Card)) : ℚ :=
  trickCards.foldl (fun acc cs =>
    cs.foldl (fun highestValue card =>
      if card.name = "phoenix" then
        match card.phoenixValue with
        | some v => max highestValue v
        | none => highestValue
      else if card.name = "dragon" then max highestValue 16
      else max highestValue
        (if card.type = "special" then getSpecialValue card.name
         else getCardValue card.rank)) acc) 0

/-- A seat entry (`{ id, team }`): the engine addresses players by string
id; teams are 1 and 2. -/
structure Player where
  id : String := ""
  team : Nat := 0
deriving DecidableEq, Repr

/-- One entry of `currentTrick`: `{ playerId, cards, combination }`. -/
structure Play where
  playerId : String := ""
  cards : List Card := []
  combination : Combination := {}
deriving DecidableEq, Repr

/-- The `mahJongWish` record `{ wishedRank, mustPlay }`. -/
structure Wish where
  wishedRank : String := ""
  mustPlay : Bool := false
deriving DecidableEq, Repr

/-- The `dragonPlayed` record `{ playerId, trickIndex }`. -/
structure DragonPlayed where
  playerId : String := ""
  trickIndex : Nat := 0
deriving DecidableEq, Repr

/-- The `dragonOpponentSelection` record `{ playerId, trickCards, trickPoints }`. -/
structure DragonSel where
  playerId : String := ""
  trickCards : List Card := []
  trickPoints : Int := 0
deriving DecidableEq, Repr

/-- A per-player stack `{ cards, points }`. -/
structure Stack where
  cards : List Card := []
  points : Int := 0
deriving DecidableEq, Repr

/-- The `{ team1, team2 }` score records. -/
structure Scores where
  team1 : Int := 0
  team2 : Int := 0
deriving DecidableEq, Repr

/-- A `trickHistory` entry. -/
structure TrickRec where
  plays : List Play := []
  winner : String := ""
  actualWinner : Option String := none
  points : Int := 0
deriving DecidableEq, Repr

/-- combinations `getPhoenixValue`: 1.5 on a lead, otherwise half a step
above the highest card already in the trick, capped below the Dragon. -/
def getPhoenixValue (phoenixCard : Card) (currentTrick : List Play) : ℚ :=
  let _ := phoenixCard
  if currentTrick = [] then 1.5
  else
    let highestValue := phoenixHighest (currentTrick.map Play.cards)
    if highestValue ≥ 16 then 15.5 else highestValue + 0.5

/-- The mutable game object: the union of the fields the embedded
functions read or write.  JS object maps keyed by player id become
association lists; nullable fields become options. -/
structure Game where
  state : String := ""
  players : List Player := []
  hands : List (String × List Card) := []
  remainingCards : List (String × List Card) := []
  cardsRevealed : List (String × Bool) := []
  turnOrder : List Player := []
  currentPlayerIndex : Nat := 0
  leadPlayer : Option String := none
  currentTrick : List Play := []
  trickHistory : List TrickRec := []
  passedPlayers : List String := []
  playersOut : List String := []
  tichuDeclarations : List (String × Bool) := []
  grandTichuDeclarations : List (String × Bool) := []
  firstCardPlayed : List (String × Bool) := []
  playerStacks : List (String × Stack) := []
  roundScores : Scores := {}
  scores : Scores := {}
  exchangeCards : List (String × List Card) := []
  exchangeComplete : List (String × Bool) := []
  mahJongWish : Option Wish := none
  mahJongPlayed : Bool := false
  roundEnded : Bool := false
  dogPriorityPlayer : Option String := none
  dragonPlayed : Option DragonPlayed := none
  dragonOpponentSelection : Option DragonSel := none
  winner : Nat := 0
  deck : List Card := []
deriving DecidableEq, Repr

/-- The visible part of a move result (`{ success, error }`); the JS
result objects carry further boolean flags and the game reference, which
the embedding returns as the threaded state. -/
structure MoveRes where
  success : Bool := false
  error : String := ""
deriving DecidableEq, Repr

/-- Looks a key up in a JS-object-as-association-list. -/
def getA {α : Type} : List (String × α) → String → Option α
  | [], _ => none
  | (k, v) :: rest, key => if k = key then some v else getA rest key

/-- Writes a key in a JS-object-as-association-list (replace or append,
preserving insertion order as JS objects do). -/
def setA {α : Type} : List (String × α) → String → α → List (String × α)
  | [], key, v => [(key, v)]
  | (k, w) :: rest, key, v =>
    if k = key then (k, v) :: rest else (k, w) :: setA rest key v

/-- Reads a boolean JS-object field; an absent key is falsy. -/
def getB (l : List (String × Bool)) (k : String) : Bool := (getA l k).getD false

/-- The hand of a player (an absent entry reads as the empty array in
every guard the source applies to it). -/
def handOf (g : Game) (pid : String) : List Card := (getA g.hands pid).getD []

/-- JS `findIndex` as an option-valued index. -/
def findIndexP {α : Type} : List α → (α → Bool) → Option Nat
  | [], _ => none
  | x :: xs, p => if p x then some 0 else (findIndexP xs p).map (· + 1)

/-- The hand-membership test the source repeats at every card removal
site (`c.type === card.type && (standard ? suit and rank : name)`). -/
def cardMatches (c target : Card) : Bool :=
  c.type == target.type &&
    (if c.type == "standard" then c.suit == target.suit && c.rank == target.rank
     else c.name == target.name)

/-- One `findIndex` + `splice(idx, 1)`: removes the first matching card,
or leaves the hand unchanged when there is none. -/
def removeFirstMatch : List Card → Card → List Card
  | [], _ => []
  | c :: rest, target =>
    if cardMatches c target then rest else c :: removeFirstMatch rest target

/-- The removal loop of `makeMove`: splices each played card out of the
hand in order. -/
def removeCards (hand : List Card) (cards : List Card) : List Card :=
  cards.foldl removeFirstMatch hand

/-- Adds to one team entry of a `{ team1, team2 }` record (teams are 1
and 2 in every state the engine builds). -/
def addTeam (s : Scores) (team : Nat) (v : Int) : Scores :=
  if team = 1 then { s with team1 := s.team1 + v } else { s with team2 := s.team2 + v }

/-- Overwrites one team entry of a `{ team1, team2 }` record. -/
def setTeam (s : Scores) (team : Nat) (v : Int) : Scores :=
  if team = 1 then { s with team1 := v } else { s with team2 := v }

/-- turnManagement.js `getNextPlayerWithCards`. -/
def getNextPlayerWithCards (g : Game) (startPlayerId : String) : Option Player :=
  match findIndexP g.turnOrder (fun p => p.id == startPlayerId) with
  | none =>
    g.turnOrder.find? (fun p =>
      ¬ g.playersOut.contains p.id ∧ ¬ (handOf g p.id).isEmpty)
  | some startIndex =>
    (List.range' 1 g.turnOrder.length).findSome? (fun i =>
      let idx := (startIndex + i) % g.turnOrder.length
      match g.turnOrder.get? idx with
      | some p =>
        if ¬ g.playersOut.contains p.id ∧ ¬ (handOf g p.id).isEmpty then some p else none
      | none => none)

/-- specialCards.js `handleSpecialCards`: returns the error (if any), the
`dogPlayed` flag, and the threaded state.  On the Dog path the state is
already mutated when the `turnOrder` lookup of the new lead fails, which
is exactly what the source does. -/
def handleSpecialCards (g : Game) (playerId : String) (cards : List Card)
    (combination : Combination) : Option String × Bool × Game :=
  if cards.any (fun c => c.name == "dog") then
    if g.currentTrick ≠ [] then (some "Dog can only be played as the lead card", false, g)
    else
      match g.players.find? (fun p => p.id == playerId) with
      | none => (some "Player not found", false, g)
      | some player =>
        let partner? := g.players.find? (fun p => p.team == player.team && p.id != playerId)
        let nextLeadPlayer? :=
          match partner? with
          | some partner =>
            if ¬ (handOf g partner.id).isEmpty ∧ ¬ g.playersOut.contains partner.id then
              some partner
            else getNextPlayerWithCards g partner.id
          | none => getNextPlayerWithCards g playerId
        match nextLeadPlayer? with
        | some nextLead =>
          let g1 := { g with leadPlayer := some nextLead.id,
                             dogPriorityPlayer := some nextLead.id }
          match findIndexP g1.turnOrder (fun p => p.id == nextLead.id) with
          | some nextIndex => (none, true, { g1 with currentPlayerIndex := nextIndex })
          | none => (some "Next lead player not found in turn order", false, g1)
        | none => (some "No valid player found to receive Dog priority", false, g)
  else
    let g' :=
      if cards.any (fun c => c.name == "dragon") ∧ combination.type = "single" then
        { g with dragonPlayed := some { playerId := playerId,
                                        trickIndex := g.trickHistory.length } }
      else g
    (none, false, g')

/-- trickManager `getCurrentWinningPlay`. -/
def getCurrentWinningPlay (currentTrick : List Play) : Option Play :=
  match currentTrick with
  | [] => none
  | first :: rest =>
    some (rest.foldl (fun winningPlay play =>
      if compareCombinations play.combination winningPlay.combination = some 1 then play
      else winningPlay) first)

/-- trickManager `startNewTrick`. -/
def startNewTrick (g : Game) : Game :=
  let g1 := { g with currentTrick := [], passedPlayers := [], dogPriorityPlayer := none }
  match findIndexP g1.turnOrder (fun p => g1.leadPlayer == some p.id) with
  | some leadPlayerIndex =>
    let leadPlayerId := ((g1.turnOrder.get? leadPlayerIndex).map Player.id).getD ""
    if ¬ (handOf g1 leadPlayerId).isEmpty ∧ ¬ g1.playersOut.contains leadPlayerId then
      { g1 with currentPlayerIndex := leadPlayerIndex }
    else
      match getNextPlayerWithCards g1 leadPlayerId with
      | some nextPlayer =>
        let g2 := { g1 with leadPlayer := some nextPlayer.id }
        match findIndexP g2.turnOrder (fun p => p.id == nextPlayer.id) with
        | some nextIndex => { g2 with currentPlayerIndex := nextIndex }
        | none => g2
      | none => g1
  | none =>
    match (List.range g1.turnOrder.length).findSome? (fun i =>
        match g1.turnOrder.get? i with
        | some p =>
          if ¬ (handOf g1 p.id).isEmpty ∧ ¬ g1.playersOut.contains p.id then
            some (i, p.id)
          else none
        | none => none) with
    | some (i, pid) => { g1 with leadPlayer := some pid, currentPlayerIndex := i }
    | none => g1

/-- trickManager `winTrick`: cards and points go to the winner unless the
Dragon player wins, in which case an opponent selection is parked and the
stack is left untouched. -/
def winTrick (g : Game) (winnerId : String) : MoveRes × Game :=
  let trickCards := g.currentTrick.foldl (fun acc play => acc ++ play.cards) []
  let trickPoints := trickCards.foldl (fun acc c => acc + getCardPoints c) 0
  let g1 :=
    match g.dragonPlayed with
    | some dp =>
      if dp.playerId == winnerId then
        { g with dragonOpponentSelection := (some
            { playerId := winnerId, trickCards := trickCards, trickPoints := trickPoints }) }
      else g
    | none => g
  let g2 :=
    if g1.dragonOpponentSelection = none then
      let st := (getA g1.playerStacks winnerId).getD {}
      { g1 with playerStacks := (setA g1.playerStacks winnerId
          { cards := st.cards ++ trickCards, points := st.points + trickPoints }) }
    else g1
  let g3 := { g2 with trickHistory := (g2.trickHistory ++
      [({ plays := g.currentTrick, winner := winnerId,
          actualWinner := if g2.dragonOpponentSelection.isSome then none else some winnerId,
          points := trickPoints } : TrickRec)]) }
  let g4 := { g3 with leadPlayer := some winnerId }
  if g4.dragonOpponentSelection.isSome then
    ({ success := true }, { g4 with currentTrick := [], passedPlayers := [] })
  else
    ({ success := true }, startNewTrick { g4 with dragonPlayed := none })

/-- One iteration of the per-team card-point sum of `handlePlayerWin`. -/
def stackSumStep (acc : Game) (p : Player) : Game :=
  match getA acc.playerStacks p.id with
  | some st => { acc with roundScores := addTeam acc.roundScores p.team st.points }
  | none => acc

/-- One iteration of the double-victory close-out loop: the remaining
player is appended to the finish order and its leftover hand cards go to
its own stack with zero points. -/
def dvOutStep (h : Game) (p : Player) : Game :=
  let h' := if ¬ h.playersOut.contains p.id then
      { h with playersOut := h.playersOut ++ [p.id] } else h
  let remaining := handOf h' p.id
  let st := (getA h'.playerStacks p.id).getD {}
  { h' with playerStacks := (setA h'.playerStacks p.id
      { st with cards := st.cards ++ remaining }) }

/-- One iteration of the Tichu / Grand-Tichu adjustment loop of
`handlePlayerWin`: a declarer in `playersOut` earns the bonus, a declarer
not in it pays the penalty. -/
def tichuAdjustStep (h : Game) (p : Player) : Game :=
  let h := if getB h.tichuDeclarations p.id ∧ h.playersOut.contains p.id then
      { h with roundScores := addTeam h.roundScores p.team 100 } else h
  let h := if getB h.grandTichuDeclarations p.id ∧ h.playersOut.contains p.id then
      { h with roundScores := addTeam h.roundScores p.team 200 } else h
  let h := if getB h.tichuDeclarations p.id ∧ ¬ h.playersOut.contains p.id then
      { h with roundScores := addTeam h.roundScores p.team (-100) } else h
  let h := if getB h.grandTichuDeclarations p.id ∧ ¬ h.playersOut.contains p.id then
      { h with roundScores := addTeam h.roundScores p.team (-200) } else h
  h

/-- The Tichu / Grand-Tichu adjustment loop of `handlePlayerWin` (the
source repeats this block verbatim in the double-victory branch and in
the round-end branch). -/
def applyTichuAdjust (g : Game) : Game :=
  g.players.foldl tichuAdjustStep g

/-- The fold of the round scores into the match totals followed by the
1000-point finish check (also duplicated verbatim in the source); `nr`
stands for the `initializeGame` call that deals the next round. -/
def foldAndCheck (nr : Game → Game) (g : Game) : Game :=
  let g1 := { g with scores := { team1 := g.scores.team1 + g.roundScores.team1,
                                 team2 := g.scores.team2 + g.roundScores.team2 } }
  if g1.scores.team1 ≥ 1000 ∨ g1.scores.team2 ≥ 1000 then
    { g1 with state := "finished", winner := if g1.scores.team1 ≥ 1000 then 1 else 2 }
  else nr g1

/-- The tailender / round-end tail of `handlePlayerWin` (the code the
source falls through to when the double-victory test does not fire):
detect the single seat still holding cards, close the round, transfer the
last-place points to the first finisher, sum the stacks per team, apply
the declaration adjustments and fold into the match. -/
def handleWinRest (nr : Game → Game) (h : Game) : MoveRes × Game :=
  let playersWithCards := h.players.filter (fun p => ¬ h.playersOut.contains p.id)
  let h1 :=
    if playersWithCards.length = 1 then
      let lastPlayer := playersWithCards.headD {}
      let h' := if ¬ h.playersOut.contains lastPlayer.id then
          { h with playersOut := h.playersOut ++ [lastPlayer.id] } else h
      let remaining := handOf h' lastPlayer.id
      let st := (getA h'.playerStacks lastPlayer.id).getD {}
      let h'' := { h' with playerStacks := (setA h'.playerStacks lastPlayer.id
          { st with cards := st.cards ++ remaining }) }
      { h'' with roundEnded := true, state := "round-ended" }
    else h
  if ¬ h1.roundEnded then ({ success := true }, h1)
  else
    let h2 :=
      if h1.playersOut.length = 4 then
        let firstPlaceId := h1.playersOut.headD ""
        let lastPlaceId := (h1.playersOut.get? 3).getD ""
        match getA h1.playerStacks lastPlaceId with
        | some lastStack =>
          let firstStack := (getA h1.playerStacks firstPlaceId).getD {}
          let h' := { h1 with playerStacks := (setA h1.playerStacks firstPlaceId
              { firstStack with points := firstStack.points + lastStack.points }) }
          { h' with playerStacks := (setA h'.playerStacks lastPlaceId
              { ((getA h'.playerStacks lastPlaceId).getD {}) with points := 0 }) }
        | none => h1
      else h1
    let h3 := { h2 with roundScores := {} }
    let h4 := h3.players.foldl stackSumStep h3
    let h5 := applyTichuAdjust h4
    ({ success := true }, foldAndCheck nr h5)

/-- The body of `handlePlayerWin` once the finishing seat has been
appended to the finish order: double-victory detection, else the
fall-through tail `handleWinRest`. -/
def handleWinBody (nr : Game → Game) (g1 : Game) : MoveRes × Game :=
  if g1.playersOut.length = 2 then
    match g1.players.find? (fun p => p.id == g1.playersOut.headD ""),
          g1.players.find? (fun p => p.id == (g1.playersOut.get? 1).getD "") with
    | some firstPlayer, some secondPlayer =>
      if firstPlayer.team = secondPlayer.team then
        let remainingPlayers := g1.players.filter (fun p => ¬ g1.playersOut.contains p.id)
        let g2 := remainingPlayers.foldl dvOutStep g1
        let g3 := { g2 with roundScores := {} }
        let g4 := { g3 with roundScores := setTeam g3.roundScores firstPlayer.team 200 }
        let g5 := applyTichuAdjust g4
        let g6 := { g5 with roundEnded := true, state := "round-ended" }
        ({ success := true }, foldAndCheck nr g6)
      else handleWinRest nr g1
    | _, _ => handleWinRest nr g1
  else handleWinRest nr g1

/-- scoring `handlePlayerWin`: finish-order tracking, double victory,
tailender close-out, last-place point transfer, team sums, Tichu
adjustments, match fold. -/
def handlePlayerWin (nr : Game → Game) (g : Game) (playerId : String) : MoveRes × Game :=
  handleWinBody nr (if ¬ g.playersOut.contains playerId then
      { g with playersOut := g.playersOut ++ [playerId] } else g)

/-- moveHandler pass-path scan: from the seat after the passer, find the
next seat that is alive and has not yet acted; stop (landing there) on an
absent entry or on the lead index. -/
def scanPassNext (g : Game) (leadPlayerIndex : Nat) : Nat → Nat → Nat
  | 0, idx => idx
  | fuel + 1, idx =>
    match g.turnOrder.get? idx with
    | none => idx
    | some p =>
      let hasGoneOut := g.playersOut.contains p.id
      let hasNoCards := (handOf g p.id).isEmpty
      let hasActed := g.passedPlayers.contains p.id ||
        g.currentTrick.any (fun play => play.playerId == p.id)
      if !hasGoneOut && !hasNoCards && !hasActed then idx
      else if idx = leadPlayerIndex then idx
      else scanPassNext g leadPlayerIndex fuel ((idx + 1) % g.turnOrder.length)

/-- moveHandler bomb-path scan (the source repeats it verbatim after a
bomb, with and without the bomber going out): find the next seat that is
alive and has not played in this trick; an absent entry is skipped. -/
def scanBombNext (g : Game) (leadPlayerIndex : Option Nat) : Nat → Nat → Nat
  | 0, idx => idx
  | fuel + 1, idx =>
    match g.turnOrder.get? idx with
    | none => scanBombNext g leadPlayerIndex fuel ((idx + 1) % g.turnOrder.length)
    | some p =>
      let hasGoneOut := g.playersOut.contains p.id
      let hasNoCards := (handOf g p.id).isEmpty
      let hasPlayed := g.currentTrick.any (fun play => play.playerId == p.id)
      if !hasGoneOut && !hasNoCards && !hasPlayed then idx
      else if leadPlayerIndex = some idx then idx
      else scanBombNext g leadPlayerIndex fuel ((idx + 1) % g.turnOrder.length)

/-- moveHandler scan used when a normal play empties the hand but the
trick continues (it additionally skips the player who just went out). -/
def scanOutNext (g : Game) (playerId : String) (leadPlayerIndex : Option Nat) :
    Nat → Nat → Nat
  | 0, idx => idx
  | fuel + 1, idx =>
    match g.turnOrder.get? idx with
    | none => scanOutNext g playerId leadPlayerIndex fuel ((idx + 1) % g.turnOrder.length)
    | some p =>
      let hasGoneOut := g.playersOut.contains p.id
      let hasNoCards := (handOf g p.id).isEmpty
      let hasPlayed := g.currentTrick.any (fun play => play.playerId == p.id)
      let isCurrentPlayer := p.id == playerId
      if !hasGoneOut && !hasNoCards && !hasPlayed && !isCurrentPlayer then idx
      else if leadPlayerIndex = some idx then idx
      else scanOutNext g playerId leadPlayerIndex fuel ((idx + 1) % g.turnOrder.length)

/-- moveHandler advance scan after a normal play that keeps the trick
open. -/
def scanPlayNext (g : Game) (leadPlayerIndex : Nat) : Nat → Nat → Nat
  | 0, idx => idx
  | fuel + 1, idx =>
    match g.turnOrder.get? idx with
    | none => scanPlayNext g leadPlayerIndex fuel ((idx + 1) % g.turnOrder.length)
    | some p =>
      let hasGoneOut := g.playersOut.contains p.id
      let hasNoCards := (handOf g p.id).isEmpty
      let hasPlayed := g.currentTrick.any (fun play => play.playerId == p.id)
      if !hasGoneOut && !hasNoCards && !hasPlayed then idx
      else if idx = leadPlayerIndex then idx
      else scanPlayNext g leadPlayerIndex fuel ((idx + 1) % g.turnOrder.length)

/-- The wish ranks `makeMove` accepts (`validRanks`). -/
def validRanks : List String :=
  ["2", "3", "4", "5", "6", "7", "8", "9", "10", "J", "Q", "K", "A"]

/-- The bomb rejection message of `makeMove`, chosen by the type of the
bomb currently on top. -/
def bombBeatMsg (currentBomb : Combination) : String :=
  if currentBomb.bombType = "four-of-a-kind" then
    "Must play a higher four-of-a-kind or a straight flush to beat the current bomb"
  else if currentBomb.bombType = "straight-flush" then
    "Must play a higher straight flush (longer or same length with higher value) to beat the current bomb"
  else "Must play a higher bomb to beat the current bomb"

/-- The Mah-Jong-wish check of the pass branch of `makeMove` (moveHandler.js lines 80-90). -/
def passWishErr (g : Game) (playerId : String) : Option String :=
  match g.mahJongWish with
  | some w =>
    if w.mustPlay ∧ (handOf g playerId).any (fun c =>
        c.type == "standard" && c.rank == w.wishedRank) then
      some ("You must play " ++ w.wishedRank ++ " as a single card (cannot pass)")
    else none
  | none => none

/-- The pass branch of `makeMove` (moveHandler.js): turn check, lead/Dog
priority checks, wish check, push into `passedPlayers`, turn advance and
possible trick completion. -/
def makeMovePass (g : Game) (playerId : String) : MoveRes × Game :=
  match g.turnOrder.get? g.currentPlayerIndex with
  | none => ({ success := false, error := "TypeError: no current player" }, g)
  | some currentPlayer =>
    if currentPlayer.id ≠ playerId then ({ success := false, error := "Not your turn" }, g) else
    if g.leadPlayer = some playerId then
      ({ success := false, error := "You are the lead player and must play a card (cannot pass)" }, g) else
    if g.dogPriorityPlayer = some playerId then
      ({ success := false, error := "You have priority from Dog and must play a card (cannot pass)" }, g) else
    if g.currentTrick = [] ∧ g.leadPlayer = some playerId then
      ({ success := false, error := "You are the lead player and must play a card to start the trick (cannot pass)" }, g) else
  match passWishErr g playerId with
    | some e => ({ success := false, error := e }, g)
    | none =>
      let g1 := { g with passedPlayers := g.passedPlayers ++ [playerId] }
      match g1.currentTrick.head? with
      | none => ({ success := false, error := "No lead player found" }, g1)
      | some firstPlay =>
        let leadPlayerId := firstPlay.playerId
        match findIndexP g1.turnOrder (fun p => p.id == leadPlayerId) with
        | none => ({ success := false, error := "Lead player not found in turn order" }, g1)
        | some leadPlayerIndex =>
          let playersWhoShouldHaveTurn := (g1.players.filter (fun p =>
              p.id != leadPlayerId && !(g1.playersOut.contains p.id) &&
              !(handOf g1 p.id).isEmpty)).map Player.id
          let allPlayersHaveActed := !playersWhoShouldHaveTurn.isEmpty &&
            playersWhoShouldHaveTurn.all (fun q =>
              g1.passedPlayers.contains q ||
              g1.currentTrick.any (fun play => play.playerId == q))
          let currentIndexBeforeAdvance := g1.currentPlayerIndex
          let nextPlayerIndex := scanPassNext g1 leadPlayerIndex g1.turnOrder.length
              ((g1.currentPlayerIndex + 1) % g1.turnOrder.length)
          let g2 := { g1 with currentPlayerIndex := nextPlayerIndex }
          let currentIndexAfterAdvance := g2.currentPlayerIndex
          let nextPlayerId? := (g2.turnOrder.get? g2.currentPlayerIndex).map Player.id
          let cycledBackToLead :=
            if !playersWhoShouldHaveTurn.isEmpty then
              let playersAfterLead := (List.range' 1 (g2.turnOrder.length - 1)).filterMap
                (fun i =>
                  let idx := (leadPlayerIndex + i) % g2.turnOrder.length
                  match g2.turnOrder.get? idx with
                  | some player =>
                    if playersWhoShouldHaveTurn.contains player.id then some player.id
                    else none
                  | none => none)
              let allAfterLeadActed := !playersAfterLead.isEmpty &&
                playersAfterLead.all (fun q =>
                  g2.passedPlayers.contains q ||
                  g2.currentTrick.any (fun play => play.playerId == q))
              let wasAfterLead := decide (leadPlayerIndex < currentIndexBeforeAdvance) ||
                (decide (currentIndexBeforeAdvance < leadPlayerIndex) &&
                  currentIndexBeforeAdvance == 0)
              let isAtOrBeforeLead := decide (currentIndexAfterAdvance ≤ leadPlayerIndex)
              let wrappedAround := wasAfterLead && isAtOrBeforeLead
              allAfterLeadActed && (wrappedAround || nextPlayerId? == some leadPlayerId)
            else false
          if ¬ g2.currentTrick.isEmpty ∧ allPlayersHaveActed = true ∧ cycledBackToLead = true then
            match getCurrentWinningPlay g2.currentTrick with
            | some winningPlay => winTrick g2 winningPlay.playerId
            | none => winTrick g2 leadPlayerId
          else ({ success := true }, g2)

/-- The beat check of the bomb branch of `makeMove`. -/
def playBombErr (g : Game) (validation : Combination) : Option String :=
  if g.currentTrick ≠ [] then
    match getCurrentWinningPlay g.currentTrick with
    | some winningPlay =>
      if winningPlay.combination.type = "bomb" then
        match compareCombinations validation winningPlay.combination with
        | none => some (bombBeatMsg winningPlay.combination)
        | some v => if v ≤ 0 then some (bombBeatMsg winningPlay.combination) else none
      else none
    | none => none
  else none

/-- The bomb branch of `makeMove` (moveHandler.js): a bomb may be thrown
out of turn; it takes the lead, rotates the turn order to the bomber and
advances past it. -/
def makeMoveBomb (nr : Game → Game) (g : Game) (playerId : String)
    (cards : List Card) (validation : Combination) : MoveRes × Game :=
  let hand := handOf g playerId
  if g.currentTrick.any (fun entry => entry.cards.any (fun c => c.name == "dog")) then
    ({ success := false, error := "Bombs cannot be played when Dog is in the current trick" }, g)
  else
  match playBombErr g validation with
  | some e => ({ success := false, error := e }, g)
  | none =>
    let g1 := { g with hands := setA g.hands playerId (removeCards hand cards) }
    let g2 := { g1 with currentTrick := (g1.currentTrick ++
        [({ playerId := playerId, cards := cards, combination := validation } : Play)]) }
    let g3 := { g2 with passedPlayers := [] }
    let g4 := { g3 with leadPlayer := some playerId }
    let g5 :=
      match findIndexP g4.turnOrder (fun p => p.id == playerId) with
      | some bombPlayerIndex =>
        { g4 with
            turnOrder := (g4.turnOrder.drop bombPlayerIndex ++
              g4.turnOrder.take bombPlayerIndex)
            currentPlayerIndex := 0 }
      | none => g4
    let g6 := if ¬ getB g5.firstCardPlayed playerId then
        { g5 with firstCardPlayed := setA g5.firstCardPlayed playerId true } else g5
    if (handOf g6 playerId).isEmpty then
      let res := handlePlayerWin nr g6 playerId
      let g7 := res.2
      if ¬ g7.roundEnded then
        let leadPlayerIndex? :=
          match g7.currentTrick.head?.map Play.playerId with
          | some lid => findIndexP g7.turnOrder (fun p => p.id == lid)
          | none => none
        let g8 := { g7 with passedPlayers := [] }
        let nextIdx := scanBombNext g8 leadPlayerIndex? g8.turnOrder.length
            (1 % g8.turnOrder.length)
        ({ success := true }, { g8 with currentPlayerIndex := nextIdx })
      else (res.1, g7)
    else
      let leadPlayerIndex? :=
        match g6.currentTrick.head?.map Play.playerId with
        | some lid => findIndexP g6.turnOrder (fun p => p.id == lid)
        | none => none
      let g7 := { g6 with passedPlayers := [] }
      let nextIdx := scanBombNext g7 leadPlayerIndex? g7.turnOrder.length
          (1 % g7.turnOrder.length)
      ({ success := true }, { g7 with currentPlayerIndex := nextIdx })

/-- The trick-beat / wish-obligation guard of the play branch of
`makeMove`. -/
def playGuardErr (g : Game) (playerId : String) (cards : List Card)
    (validation : Combination) : Option String :=
  let dogInTrick := g.currentTrick.length == 1 &&
    (g.currentTrick.headD {}).cards.any (fun c => c.name == "dog")
  let hasDogPriority := g.dogPriorityPlayer == some playerId
  if g.currentTrick ≠ [] ∧ ¬ (dogInTrick && hasDogPriority) = true then
    match getCurrentWinningPlay g.currentTrick with
    | none => some "Invalid trick state"
    | some winningPlay =>
      if winningPlay.combination.type = "bomb" ∧ validation.type ≠ "bomb" then
        some "Only a bomb can beat a bomb. You must play a bomb or pass"
      else
        match compareCombinations validation winningPlay.combination with
        | none => some "Must play a higher combination or pass"
        | some v => if v ≤ 0 then some "Must play a higher combination or pass" else none
  else if g.currentTrick = [] then
    match g.mahJongWish with
    | some w =>
      if w.mustPlay then
        if (handOf g playerId).any (fun c =>
            c.type == "standard" && c.rank == w.wishedRank) then
          if validation.type ≠ "single" ∨ (cards.headD {}).type ≠ "standard" ∨
              (cards.headD {}).rank ≠ w.wishedRank then
            some ("You must play " ++ w.wishedRank ++ " as a single card to start this trick")
          else none
        else if validation.type ≠ "single" then
          some "Must play a single card to start this trick (wish is active)"
        else none
      else none
    | none => none
  else none

/-- Step `g3` of the play branch of `makeMove`: the played cards leave the
player's hand. -/
def playApplyHands (playerId : String) (cardsP : List Card) (gS : Game) : Game :=
  { gS with hands := (setA gS.hands playerId
      (removeCards (handOf gS playerId) cardsP)) }

/-- Step `g4` of the play branch of `makeMove`: first-card bookkeeping. -/
def playApplyFirst (playerId : String) (g3 : Game) : Game :=
  if ¬ getB g3.firstCardPlayed playerId then
    { g3 with firstCardPlayed := setA g3.firstCardPlayed playerId true } else g3

/-- Step `g5` of the play branch of `makeMove`: the play joins the trick. -/
def playApplyTrick (playerId : String) (cardsP : List Card)
    (validationP : Combination) (g4 : Game) : Game :=
  { g4 with currentTrick := (g4.currentTrick ++
      [({ playerId := playerId, cards := cardsP, combination := validationP } : Play)]) }

/-- Step `g6` of the play branch of `makeMove`: an active wish is cleared
when the play is a single standard card of the wished rank. -/
def playApplyWish (cardsP : List Card) (validationP : Combination) (g5 : Game) : Game :=
  match g5.mahJongWish with
  | some w =>
    if w.mustPlay ∧ validationP.type = "single" ∧
        (cardsP.headD {}).type = "standard" ∧
        (cardsP.headD {}).rank = w.wishedRank then
      { g5 with mahJongWish := none }
    else g5
  | none => g5

/-- Steps `g3`-`g6` of the play branch of `makeMove`: hand update, first-card
bookkeeping, trick push, wish fulfilment check. -/
def playApply (playerId : String) (cardsP : List Card) (validationP : Combination)
    (gS : Game) : Game :=
  playApplyWish cardsP validationP (playApplyTrick playerId cardsP validationP
    (playApplyFirst playerId (playApplyHands playerId cardsP gS)))

/-- The player-went-out tail of the play branch of `makeMove`: possible trick
close-out, `handlePlayerWin`, and turn advance when the round goes on. -/
def playOutAdvance (nr : Game → Game) (playerId : String) (g6 : Game) : MoveRes × Game :=
  if g6.passedPlayers.length = g6.players.length - 1 then
    let tres := winTrick g6 playerId
    let wres := handlePlayerWin nr tres.2 playerId
    (wres.1, wres.2)
  else
    let wres := handlePlayerWin nr g6 playerId
    let g7 := wres.2
    if ¬ g7.roundEnded then
      let leadPlayerIndex? :=
        match g7.currentTrick.head?.map Play.playerId with
        | some lid => findIndexP g7.turnOrder (fun p => p.id == lid)
        | none => none
      let g8 := { g7 with passedPlayers := [] }
      let nextIdx := scanOutNext g8 playerId leadPlayerIndex? g8.turnOrder.length
          ((g8.currentPlayerIndex + 1) % g8.turnOrder.length)
      ({ success := true }, { g8 with currentPlayerIndex := nextIdx })
    else (wres.1, g7)

/-- Dog-priority clearing (`g7`) in the play branch of `makeMove`. -/
def playClearDog (playerId : String) (g6 : Game) : Game :=
  if g6.dogPriorityPlayer == some playerId then
    { g6 with dogPriorityPlayer := none } else g6

/-- The turn advance at the end of the play branch of `makeMove` when the
player keeps cards and no Dog was played. -/
def playAdvance (playerId : String) (g7 : Game) : MoveRes × Game :=
  match g7.currentTrick.head? with
  | none => ({ success := false, error := "Invalid trick state - no lead player found" }, g7)
  | some firstPlay =>
    match findIndexP g7.turnOrder (fun p => p.id == firstPlay.playerId) with
    | none => ({ success := false, error := "Lead player not found in turn order" }, g7)
    | some leadPlayerIndex =>
      let g8 := { g7 with passedPlayers := [] }
      if ¬ g8.currentTrick.any (fun play => play.playerId == playerId) then
        ({ success := false, error := "Current player not found in trick" }, g8)
      else
        let nextIdx := scanPlayNext g8 leadPlayerIndex g8.turnOrder.length
            ((g8.currentPlayerIndex + 1) % g8.turnOrder.length)
        ({ success := true }, { g8 with currentPlayerIndex := nextIdx })

/-- The tail of the play branch of `makeMove` after `handleSpecialCards`
returned no error: hand update, trick push, wish fulfilment check,
player-out handling and turn advance. -/
def afterSpecialF (nr : Game → Game) (playerId : String) (cardsP : List Card)
    (validationP : Combination) (dogWasPlayed : Bool) (gS : Game) : MoveRes × Game :=
  let g6 := playApply playerId cardsP validationP gS
  if (handOf g6 playerId).isEmpty ∧ ¬ dogWasPlayed = true then
    playOutAdvance nr playerId g6
  else
    let g7 := playClearDog playerId g6
    if ¬ dogWasPlayed = true then playAdvance playerId g7
    else ({ success := true }, g7)

/-- The `afterWish` continuation of the play branch of `makeMove`: Phoenix
value fixing, special-card handling, then `afterSpecialF`. -/
def afterWishF (nr : Game → Game) (playerId : String) (cards : List Card)
    (validation : Combination) (gW : Game) : MoveRes × Game :=
  let phoenixStep : List Card × Combination :=
    if validation.type = "single" ∧ (cards.headD {}).name = "phoenix" then
      let phoenixValue := getPhoenixValue (cards.headD {}) gW.currentTrick
      let cardsP :=
        match cards with
        | c :: restC => { c with phoenixValue := some phoenixValue } :: restC
        | [] => cards
      (cardsP, { validation with cards := cardsP, phoenixValue := some phoenixValue })
    else (cards, validation)
  let cardsP := phoenixStep.1
  let validationP := phoenixStep.2
  let special := handleSpecialCards gW playerId cardsP validationP
  match special.1 with
  | some e => ({ success := false, error := e }, special.2.2)
  | none => afterSpecialF nr playerId cardsP validationP special.2.1 special.2.2

/-- moveHandler `makeMove` (the first, authoritative version of the
file, lines 1-693), factored here into its pass, bomb and play branches
(`makeMovePass`, `makeMoveBomb`, `afterWishF`).  `nr` stands for
the `initializeGame` call that `handlePlayerWin` makes when a round ends
below 1000 points.  Where the source would throw a `TypeError` on an
undefined `turnOrder` entry, the embedding returns a rejection with the
state untouched, which is what the crash leaves behind. -/
def makeMove (nr : Game → Game) (g : Game) (playerId : String) (cards : List Card)
    (action : String) (mahJongWishArg : Option String) : MoveRes × Game :=
  if g.state ≠ "playing" then ({ success := false, error := "Game is not in playing state" }, g) else
  if action = "pass" then makeMovePass g playerId
  else
    if ¬ (validateCombination cards).valid then
      ({ success := false,
         error := if (validateCombination cards).error = "" then "Invalid combination"
                  else (validateCombination cards).error }, g)
    else
    if ¬ cards.all (fun card => (handOf g playerId).any (fun c => cardMatches c card)) then
      ({ success := false, error := "Card not in hand" }, g)
    else
    if (validateCombination cards).type = "bomb" then
      makeMoveBomb nr g playerId cards (validateCombination cards)
    else
    match g.turnOrder.get? g.currentPlayerIndex with
    | none => ({ success := false, error := "TypeError: no current player" }, g)
    | some currentPlayer =>
      if currentPlayer.id ≠ playerId then ({ success := false, error := "Not your turn" }, g) else
      if ¬ g.mahJongPlayed ∧ g.leadPlayer = some playerId ∧ g.currentTrick = [] ∧
          (handOf g playerId).any (fun c => c.name == "mahjong") ∧
          ¬ cards.any (fun c => c.name == "mahjong") then
        ({ success := false, error := "You must play Mah Jong first" }, g)
      else
      match playGuardErr g playerId cards (validateCombination cards) with
      | some e => ({ success := false, error := e }, g)
      | none =>
        if cards.any (fun c => c.name == "mahjong") ∧
            (validateCombination cards).type = "single" ∧ g.currentTrick = [] then
          match mahJongWishArg with
          | none => ({ success := false, error := "Must specify a wish when playing Mah Jong as a single" }, g)
          | some w =>
            if ¬ validRanks.contains w then
              ({ success := false, error := "Wish must be for a standard card rank (2-A), not a special card" }, g)
            else
              afterWishF nr playerId cards (validateCombination cards) { g with
                mahJongWish := some { wishedRank := w, mustPlay := true }
                mahJongPlayed := true }
        else if cards.any (fun c => c.name == "mahjong") ∧
            (validateCombination cards).type = "straight" then
          afterWishF nr playerId cards (validateCombination cards)
            { g with mahJongPlayed := true, mahJongWish := none }
        else afterWishF nr playerId cards (validateCombination cards) g

/-- One collected exchange assignment of `completeExchange`:
`{ giver, cards, opponents, partner }`. -/
structure ExchangeRec where
  giver : String := ""
  cards : List Card := []
  opponents : List String := []
  partner : Option String := none
deriving DecidableEq, Repr

/-- The per-giver distribution loop of `completeExchange`: the first
cards go to the opponents (one each, in `players` order), the next one to
the partner; each card is spliced out of the giver's hand and appended to
the recipient's hand.  `cardIndex` threads through exactly as in the
source. -/
def giveToOpponents (giverId : String) (cards : List Card) :
    List String → Nat → Game → Nat × Game
  | [], cardIndex, g => (cardIndex, g)
  | opponentId :: restOpp, cardIndex, g =>
    if cards.length ≤ cardIndex then (cardIndex, g)
    else
      let card := (cards.get? cardIndex).getD {}
      let giverHand := handOf g giverId
      let g' :=
        if giverHand.any (fun c => cardMatches c card) then
          let g1 := { g with hands := setA g.hands giverId (removeFirstMatch giverHand card) }
          { g1 with hands := setA g1.hands opponentId (handOf g1 opponentId ++ [card]) }
        else g
      giveToOpponents giverId cards restOpp (cardIndex + 1) g'

/-- gameState.js `completeExchange`: collects every seat's 3-card
submission, then performs the swap (two cards to the opponents, one to
the partner), clears the exchange workspace and enters the play phase.
Nothing else of the state is written: in particular `leadPlayer`,
`turnOrder` and `currentPlayerIndex` keep the values fixed at deal
time. -/
def completeExchange (g : Game) : MoveRes × Game :=
  if g.players.any (fun giver =>
      ((getA g.exchangeCards giver.id).getD []).length ≠ 3) then
    ({ success := false, error := "All players must exchange 3 cards" }, g)
  else
    let exchanges : List ExchangeRec := g.players.map (fun giver =>
      { giver := giver.id
        cards := (getA g.exchangeCards giver.id).getD []
        opponents := ((g.players.filter (fun p =>
            p.id != giver.id && p.team != giver.team)).map Player.id)
        partner := (g.players.find? (fun p =>
            p.team == giver.team && p.id != giver.id)).map Player.id })
    let g1 := exchanges.foldl (fun h ex =>
      let afterOpp := giveToOpponents ex.giver ex.cards ex.opponents 0 h
      let cardIndex := afterOpp.1
      let h1 := afterOpp.2
      match ex.partner with
      | some partnerId =>
        if cardIndex < ex.cards.length then
          let card := (ex.cards.get? cardIndex).getD {}
          let giverHand := handOf h1 ex.giver
          if giverHand.any (fun c => cardMatches c card) then
            let h2 := { h1 with hands := setA h1.hands ex.giver (removeFirstMatch giverHand card) }
            { h2 with hands := setA h2.hands partnerId (handOf h2 partnerId ++ [card]) }
          else h1
        else h1
      | none => h1) g
    ({ success := true },
     { g1 with exchangeCards := [], exchangeComplete := [], state := "playing" })

/-- gameState.js `getPlayerView`: the spread copy of the whole game with
the `hands` map replaced by the viewer's own hand, plus the added
`handCounts` map.  Every other field of the game object (including
`remainingCards` and `exchangeCards`) is carried into the view verbatim;
the embedding returns the copied game and the fresh `handCounts`
field. -/
def getPlayerView (g : Game) (playerId : String) : Game × List (String × Nat) :=
  let view := { g with hands := setA [] playerId (handOf g playerId) }
  let handCounts := (g.players.filter (fun p => p.id != playerId)).map (fun p =>
    (p.id, ((getA g.hands p.id).getD []).length))
  (view, handCounts)

/-! ### Concrete states used by the theorems below -/

/-- Scenario: seat p1 (team 1) has already finished first, its partner p2
empties its hand next (a double victory for team 1); the opposing seat p3
had declared Tichu and never finished.  Card stacks are empty, prior
match totals are zero. -/
def gameC1 : Game :=
  { state := "playing"
    players := [⟨"p1", 1⟩, ⟨"p2", 1⟩, ⟨"p3", 2⟩, ⟨"p4", 2⟩]
    turnOrder := [⟨"p1", 1⟩, ⟨"p2", 1⟩, ⟨"p3", 2⟩, ⟨"p4", 2⟩]
    hands := [("p1", []), ("p2", []),
              ("p3", [stdCard "hearts" "2"]), ("p4", [stdCard "hearts" "3"])]
    playersOut := ["p1"]
    tichuDeclarations := [("p3", true)]
    playerStacks := [("p1", {}), ("p2", {}), ("p3", {}), ("p4", {})] }

/-- A playing state whose current seat is not the lead seat while no
trick is open: the pass handler then pushes the passer onto
`passedPlayers` before discovering that there is no lead play to compare
against. -/
def gameC2x : Game :=
  { state := "playing"
    players := [⟨"pA", 1⟩, ⟨"pB", 2⟩, ⟨"pC", 1⟩, ⟨"pD", 2⟩]
    turnOrder := [⟨"pA", 1⟩, ⟨"pB", 2⟩, ⟨"pC", 1⟩, ⟨"pD", 2⟩]
    currentPlayerIndex := 1
    leadPlayer := some "pA"
    hands := [("pA", [stdCard "hearts" "2"]), ("pB", [stdCard "hearts" "3"]),
              ("pC", [stdCard "hearts" "4"]), ("pD", [stdCard "hearts" "5"])]
    currentTrick := [] }

/-- Scenario for the turn-progression invariant: seat pL led its last
card and went out, seat pD answered with a four-of-a-kind bomb (which
rotated the turn order to `[pD, pB, pL, pA]` and made pD the lead for the
next trick), and seat pB is about to pass while pA has not acted yet. -/
def gameC3 : Game :=
  { state := "playing"
    players := [⟨"pL", 1⟩, ⟨"pA", 1⟩, ⟨"pD", 2⟩, ⟨"pB", 2⟩]
    turnOrder := [⟨"pD", 2⟩, ⟨"pB", 2⟩, ⟨"pL", 1⟩, ⟨"pA", 1⟩]
    currentPlayerIndex := 1
    leadPlayer := some "pD"
    playersOut := ["pL"]
    hands := [("pL", []), ("pA", [stdCard "hearts" "3"]),
              ("pD", [stdCard "hearts" "4"]), ("pB", [stdCard "hearts" "5"])]
    currentTrick :=
      [⟨"pL", [stdCard "hearts" "2"], validateCombination [stdCard "hearts" "2"]⟩,
       ⟨"pD", [stdCard "hearts" "K", stdCard "diamonds" "K", stdCard "clubs" "K",
               stdCard "spades" "K"],
        validateCombination [stdCard "hearts" "K", stdCard "diamonds" "K",
          stdCard "clubs" "K", stdCard "spades" "K"]⟩]
    firstCardPlayed := [("pL", true), ("pD", true)]
    mahJongPlayed := true }

/-- Scenario: seat pA led the Dog, which stays in the trick and gives the
partner pC priority; pC holds the Mah Jong and plays it as a single
without naming any wish. -/
def gameC4x : Game :=
  { state := "playing"
    players := [⟨"pA", 1⟩, ⟨"pB", 2⟩, ⟨"pC", 1⟩, ⟨"pD", 2⟩]
    turnOrder := [⟨"pA", 1⟩, ⟨"pB", 2⟩, ⟨"pC", 1⟩, ⟨"pD", 2⟩]
    currentPlayerIndex := 2
    leadPlayer := some "pC"
    dogPriorityPlayer := some "pC"
    hands := [("pA", [stdCard "hearts" "9"]), ("pB", [stdCard "hearts" "3"]),
              ("pC", [specCard "mahjong", stdCard "hearts" "4"]),
              ("pD", [stdCard "hearts" "5"])]
    currentTrick := [⟨"pA", [specCard "dog"], validateCombination [specCard "dog"]⟩] }

/-- The double-victory state of `gameC1` with prior match totals 900 for
team 1 and 1150 for team 2: folding the round in pushes both teams over
1000 with team 2 strictly ahead. -/
def gameC5x : Game := { gameC1 with scores := { team1 := 900, team2 := 1150 } }

/-- Exchange scenario: p1 holds the Mah Jong at deal time (so p1 is the
lead fixed by `initializeGame`), and hands it to the opponent p2 as the
first of its three exchange cards. -/
def gameC9 : Game :=
  { state := "exchanging"
    players := [⟨"p1", 1⟩, ⟨"p2", 2⟩, ⟨"p3", 1⟩, ⟨"p4", 2⟩]
    turnOrder := [⟨"p1", 1⟩, ⟨"p2", 2⟩, ⟨"p3", 1⟩, ⟨"p4", 2⟩]
    currentPlayerIndex := 0
    leadPlayer := some "p1"
    hands := [("p1", [specCard "mahjong", stdCard "hearts" "2", stdCard "hearts" "3",
                      stdCard "hearts" "4"]),
              ("p2", [stdCard "clubs" "5", stdCard "clubs" "6", stdCard "clubs" "7",
                      stdCard "clubs" "8"]),
              ("p3", [stdCard "spades" "5", stdCard "spades" "6", stdCard "spades" "7",
                      stdCard "spades" "8"]),
              ("p4", [stdCard "diamonds" "5", stdCard "diamonds" "6",
                      stdCard "diamonds" "7", stdCard "diamonds" "8"])]
    exchangeCards := [("p1", [specCard "mahjong", stdCard "hearts" "2", stdCard "hearts" "3"]),
                      ("p2", [stdCard "clubs" "5", stdCard "clubs" "6", stdCard "clubs" "7"]),
                      ("p3", [stdCard "spades" "5", stdCard "spades" "6", stdCard "spades" "7"]),
                      ("p4", [stdCard "diamonds" "5", stdCard "diamonds" "6",
                              stdCard "diamonds" "7"])] }

/-- Grand-Tichu-window state in which seat p2 still has an unrevealed
hidden-six card (the King of spades). -/
def gameC10 : Game :=
  { state := "grand-tichu"
    players := [⟨"p1", 1⟩, ⟨"p2", 2⟩, ⟨"p3", 1⟩, ⟨"p4", 2⟩]
    hands := [("p1", [stdCard "hearts" "2"]), ("p2", [stdCard "clubs" "9"])]
    remainingCards := [("p1", [stdCard "hearts" "A"]), ("p2", [stdCard "spades" "K"])]
    cardsRevealed := [("p1", false), ("p2", false)] }

/-! ### Theorems for the claims -/

/-- The well-formedness used by the rejection-purity theorem: every seat of
`players` occurs in `turnOrder`, and every play of the current trick was
made by a seat of `turnOrder`. -/
def wfTurn (g : Game) : Bool :=
  g.players.all (fun p => g.turnOrder.any (fun q => q.id == p.id)) &&
  g.currentTrick.all (fun pl => g.turnOrder.any (fun q => q.id == pl.playerId))

/-- Concrete accepted Mah-Jong single: lead seat `p1` opens the round with
the Mah Jong and wishes for an 8. -/
def gameC4w : Game :=
  { state := "playing"
    players := [⟨"p1", 1⟩, ⟨"p2", 2⟩, ⟨"p3", 1⟩, ⟨"p4", 2⟩]
    turnOrder := [⟨"p1", 1⟩, ⟨"p2", 2⟩, ⟨"p3", 1⟩, ⟨"p4", 2⟩]
    currentPlayerIndex := 0
    leadPlayer := some "p1"
    hands := [("p1", [specCard "mahjong", stdCard "hearts" "5"]),
              ("p2", [stdCard "hearts" "6"]), ("p3", [stdCard "hearts" "7"]),
              ("p4", [stdCard "hearts" "8"])]
    currentTrick := [] }

/-- A state with an active wish for an 8: lead seat `p1` holds the wished
standard 8 and a 5, the trick is empty. -/
def gameC4p : Game :=
  { state := "playing"
    players := [⟨"p1", 1⟩, ⟨"p2", 2⟩, ⟨"p3", 1⟩, ⟨"p4", 2⟩]
    turnOrder := [⟨"p1", 1⟩, ⟨"p2", 2⟩, ⟨"p3", 1⟩, ⟨"p4", 2⟩]
    currentPlayerIndex := 0
    leadPlayer := some "p1"
    mahJongPlayed := true
    mahJongWish := some { wishedRank := "8", mustPlay := true }
    hands := [("p1", [stdCard "hearts" "8", stdCard "hearts" "5"]),
              ("p2", [stdCard "hearts" "6"]), ("p3", [stdCard "hearts" "7"]),
              ("p4", [stdCard "hearts" "9"])]
    currentTrick := [] }

/-- C1.  At round end every seat is in `playersOut` (the tailender and the
double-victory losers are pushed before the declaration loop runs), so the
success test `playersOut.includes(p.id)` holds for everybody: a declarer
that did **not** finish first still receives +100/+200 and the −100/−200
branch never fires.  At the concrete double-victory state `gameC1` the
non-finishing Tichu declarer p3 earns team 2 a +100 delta where the claim
demands −100 (the spec scenario expects team B = −100). -/
theorem C1_failed_tichu_gets_bonus :
    (handlePlayerWin (fun x => x) gameC1 "p2").2.playersOut = ["p1", "p2", "p3", "p4"] ∧
    (handlePlayerWin (fun x => x) gameC1 "p2").2.roundScores.team1 = 200 ∧
    (handlePlayerWin (fun x => x) gameC1 "p2").2.roundScores.team2 = 100 ∧
    getB gameC1.tichuDeclarations "p3" = true ∧
    gameC1.playersOut = ["p1"] := by decide

/-- C3.  An accepted Pass that leaves the trick open can leave the current
seat pointing at a seat that has gone out with an empty hand: at `gameC3`
the pass by pB is accepted, the trick is unchanged (two plays, no winner),
and `turnOrder[currentPlayerIndex]` is pL, which is in `playersOut` and
holds no cards — the advance loop stopped at the lead index of the trick
opener regardless of that seat being out. -/
theorem C3_accepted_pass_lands_on_out_seat :
    (makeMove (fun x => x) gameC3 "pB" [] "pass" none).1.success = true ∧
    (makeMove (fun x => x) gameC3 "pB" [] "pass" none).2.currentTrick = gameC3.currentTrick ∧
    ((makeMove (fun x => x) gameC3 "pB" [] "pass" none).2.turnOrder.get?
      (makeMove (fun x => x) gameC3 "pB" [] "pass" none).2.currentPlayerIndex).map Player.id
      = some "pL" ∧
    (makeMove (fun x => x) gameC3 "pB" [] "pass" none).2.playersOut.contains "pL" = true ∧
    handOf (makeMove (fun x => x) gameC3 "pB" [] "pass" none).2 "pL" = [] := by decide

/-- C6.  `compareFullHouses` is an unimplemented TODO that returns 0, so
two valid full houses with different triple ranks (2-2-2-3-3 against
K-K-K-4-4) compare as equal in both directions, where the claim demands
−1 / 1 by triple rank. -/
theorem C6_fullhouse_compare_always_zero :
    (validateCombination [stdCard "hearts" "2", stdCard "diamonds" "2", stdCard "clubs" "2",
      stdCard "hearts" "3", stdCard "diamonds" "3"]).type = "fullhouse" ∧
    (validateCombination [stdCard "hearts" "K", stdCard "diamonds" "K", stdCard "clubs" "K",
      stdCard "hearts" "4", stdCard "diamonds" "4"]).type = "fullhouse" ∧
    compareCombinations
      (validateCombination [stdCard "hearts" "2", stdCard "diamonds" "2", stdCard "clubs" "2",
        stdCard "hearts" "3", stdCard "diamonds" "3"])
      (validateCombination [stdCard "hearts" "K", stdCard "diamonds" "K", stdCard "clubs" "K",
        stdCard "hearts" "4", stdCard "diamonds" "4"]) = some 0 ∧
    compareCombinations
      (validateCombination [stdCard "hearts" "K", stdCard "diamonds" "K", stdCard "clubs" "K",
        stdCard "hearts" "4", stdCard "diamonds" "4"])
      (validateCombination [stdCard "hearts" "2", stdCard "diamonds" "2", stdCard "clubs" "2",
        stdCard "hearts" "3", stdCard "diamonds" "3"]) = some 0 := by decide

/-- C8.  `validateBomb` filters the Phoenix out of the rank list before
testing uniqueness, so three Kings plus the Phoenix classify as a valid
four-of-a-kind bomb — the claim (and the repository's own unit test
expecting this set to be rejected) says a bomb can never contain the
Phoenix. -/
theorem C8_phoenix_four_of_a_kind_is_bomb :
    (validateCombination [stdCard "hearts" "K", stdCard "diamonds" "K", stdCard "clubs" "K",
      specCard "phoenix"]).valid = true ∧
    (validateCombination [stdCard "hearts" "K", stdCard "diamonds" "K", stdCard "clubs" "K",
      specCard "phoenix"]).type = "bomb" ∧
    (validateCombination [stdCard "hearts" "K", stdCard "diamonds" "K", stdCard "clubs" "K",
      specCard "phoenix"]).bombType = "four-of-a-kind" ∧
    [stdCard "hearts" "K", stdCard "diamonds" "K", stdCard "clubs" "K",
      specCard "phoenix"].any (fun c => c.name == "phoenix") = true := by decide

/-- C9.  `completeExchange` performs the swap and enters the play phase
but never relocates the Mah Jong holder: at `gameC9` the Mah Jong moves
to p2, yet `leadPlayer`, `turnOrder` and `currentPlayerIndex` keep the
deal-time values pointing at p1, so the seat holding the Mah Jong after
the swap does not lead the first trick. -/
theorem C9_exchange_keeps_stale_lead :
    (completeExchange gameC9).1.success = true ∧
    (completeExchange gameC9).2.state = "playing" ∧
    (completeExchange gameC9).2.leadPlayer = some "p1" ∧
    (completeExchange gameC9).2.turnOrder = gameC9.turnOrder ∧
    (completeExchange gameC9).2.currentPlayerIndex = gameC9.currentPlayerIndex ∧
    (handOf (completeExchange gameC9).2 "p2").any (fun c => c.name == "mahjong") = true ∧
    (handOf (completeExchange gameC9).2 "p1").any (fun c => c.name == "mahjong") = false := by
  decide

/-- C10.  `getPlayerView` spreads the whole game object and replaces only
`hands`, so the per-seat view for p1 still carries every other seat's
unrevealed hidden-six cards in `remainingCards`: p2's unrevealed King of
spades is visible verbatim in p1's view. -/
theorem C10_view_leaks_hidden_six :
    getA (getPlayerView gameC10 "p1").1.remainingCards "p2" = some [stdCard "spades" "K"] ∧
    getB gameC10.cardsRevealed "p2" = false ∧
    (getPlayerView gameC10 "p1").1.hands = [("p1", [stdCard "hearts" "2"])] := by decide

/-- C2 counterexample.  A rejected Pass is not always state-pure: at
`gameC2x` the pass by pB is rejected with the no-lead-play error, yet
`passedPlayers` has already been mutated from `[]` to `["pB"]`. -/
theorem C2_rejected_pass_mutates_state :
    (makeMove (fun x => x) gameC2x "pB" [] "pass" none).1.success = false ∧
    (makeMove (fun x => x) gameC2x "pB" [] "pass" none).2.passedPlayers = ["pB"] ∧
    gameC2x.passedPlayers = [] ∧
    (makeMove (fun x => x) gameC2x "pB" [] "pass" none).2 ≠ gameC2x := by decide

/-- C4 counterexample.  An accepted play of the Mah Jong as a single
without any named wish: after a Dog lead the priority seat pC plays the
Mah Jong single onto the Dog trick (the wish block only runs on an empty
trick), the play is accepted and no wish is set. -/
theorem C4_mahjong_single_accepted_without_wish :
    (validateCombination [specCard "mahjong"]).type = "single" ∧
    (makeMove (fun x => x) gameC4x "pC" [specCard "mahjong"] "play" none).1.success = true ∧
    (makeMove (fun x => x) gameC4x "pC" [specCard "mahjong"] "play" none).2.mahJongWish
      = none := by decide

/-- C5 counterexample.  Folding a double-victory round into prior totals
(900, 1150) leaves both teams at or above 1000 with team 2 strictly
ahead (1100 against 1250), yet the engine declares team 1 the winner
because it only tests team 1 first. -/
theorem C5_team1_wins_with_lower_total :
    (handlePlayerWin (fun x => x) gameC5x "p2").2.state = "finished" ∧
    (handlePlayerWin (fun x => x) gameC5x "p2").2.scores.team1 = 1100 ∧
    (handlePlayerWin (fun x => x) gameC5x "p2").2.scores.team2 = 1250 ∧
    (handlePlayerWin (fun x => x) gameC5x "p2").2.winner = 1 := by decide

/-- C7 counterexample.  Two distinct special cards (the Dog and the
Dragon) classify as a valid pair, where the claim says any two specials
other than one-standard-plus-Phoenix must be invalid. -/
theorem C7_two_specials_form_pair :
    (validatePair [specCard "dog", specCard "dragon"]).valid = true ∧
    (validatePair [specCard "dog", specCard "dragon"]).type = "pair" := by decide


lemma tichuAdjustStep_state (h : Game) (p : Player) : (tichuAdjustStep h p).state = h.state := by
  simp only [tichuAdjustStep]
  split_ifs <;> rfl

lemma foldl_tichuAdjustStep_state (l : List Player) (a : Game) :
    (l.foldl tichuAdjustStep a).state = a.state := by
  induction l generalizing a with
  | nil => rfl
  | cons p rest ih => simp only [List.foldl_cons]; rw [ih, tichuAdjustStep_state]

lemma stackSumStep_state (a : Game) (p : Player) : (stackSumStep a p).state = a.state := by
  simp only [stackSumStep]
  split <;> rfl

lemma foldl_stackSumStep_state (l : List Player) (a : Game) :
    (l.foldl stackSumStep a).state = a.state := by
  induction l generalizing a with
  | nil => rfl
  | cons p rest ih => simp only [List.foldl_cons]; rw [ih, stackSumStep_state]

lemma applyTichuAdjust_state (g : Game) : (applyTichuAdjust g).state = g.state :=
  foldl_tichuAdjustStep_state _ _

lemma foldAndCheck_id_spec (g : Game) (hg : g.state = "round-ended") :
    ((foldAndCheck (fun x => x) g).state = "finished" ↔
       ((foldAndCheck (fun x => x) g).scores.team1 ≥ 1000 ∨
        (foldAndCheck (fun x => x) g).scores.team2 ≥ 1000)) ∧
    ((foldAndCheck (fun x => x) g).state = "finished" →
       (foldAndCheck (fun x => x) g).winner =
         (if (foldAndCheck (fun x => x) g).scores.team1 ≥ 1000 then 1 else 2)) := by
  simp only [foldAndCheck]
  split
  · next h => exact ⟨iff_of_true rfl h, fun _ => rfl⟩
  · next h =>
    constructor
    · constructor
      · intro hfin; rw [hg] at hfin; exact absurd hfin (by decide)
      · intro hc; exact absurd hc h
    · intro hfin; rw [hg] at hfin; exact absurd hfin (by decide)

lemma handleWinRest_end_spec (h : Game) (res : MoveRes) (g2 : Game)
    (heq : handleWinRest (fun x => x) h = (res, g2))
    (hre : h.roundEnded = false) :
    g2.roundEnded = false ∨
    ((g2.state = "finished" ↔ (g2.scores.team1 ≥ 1000 ∨ g2.scores.team2 ≥ 1000)) ∧
     (g2.state = "finished" → g2.winner = (if g2.scores.team1 ≥ 1000 then 1 else 2))) := by
  simp only [handleWinRest] at heq
  split at heq
  · split at heq <;>
      · split at heq
        · next hno => exact absurd rfl hno
        · split at heq <;>
            first
            | (split at heq <;>
                · injection heq with h1 h2
                  subst h2
                  exact Or.inr (foldAndCheck_id_spec _
                    (by rw [applyTichuAdjust_state, foldl_stackSumStep_state])))
            | (injection heq with h1 h2
               subst h2
               exact Or.inr (foldAndCheck_id_spec _
                 (by rw [applyTichuAdjust_state, foldl_stackSumStep_state])))
  · split at heq
    · injection heq with h1 h2
      subst h2
      exact Or.inl hre
    · next hyes => exact absurd hre (by simpa using hyes)

lemma handleWinBody_end_spec (g1 : Game) (res : MoveRes) (g2 : Game)
    (heq : handleWinBody (fun x => x) g1 = (res, g2))
    (hre : g1.roundEnded = false) :
    g2.roundEnded = false ∨
    ((g2.state = "finished" ↔ (g2.scores.team1 ≥ 1000 ∨ g2.scores.team2 ≥ 1000)) ∧
     (g2.state = "finished" → g2.winner = (if g2.scores.team1 ≥ 1000 then 1 else 2))) := by
  simp only [handleWinBody] at heq
  split at heq
  · split at heq
    · split at heq
      · injection heq with h1 h2
        subst h2
        exact Or.inr (foldAndCheck_id_spec _ rfl)
      · exact handleWinRest_end_spec _ _ _ heq hre
    · exact handleWinRest_end_spec _ _ _ heq hre
  · exact handleWinRest_end_spec _ _ _ heq hre

/-- C5 (amended).  Whenever `handlePlayerWin` ends the round (entered
with `roundEnded = false`), the match is declared finished exactly when a
folded team total reaches 1000, and the declared winner is team 1
whenever team 1 has at least 1000, otherwise team 2 — not the
higher-total team, as the counterexample shows. -/
theorem C5_match_end_winner_rule (g : Game) (pid : String) (res : MoveRes) (g2 : Game)
    (heq : handlePlayerWin (fun x => x) g pid = (res, g2))
    (hre : g.roundEnded = false) (hend : g2.roundEnded = true) :
    (g2.state = "finished" ↔ (g2.scores.team1 ≥ 1000 ∨ g2.scores.team2 ≥ 1000)) ∧
    (g2.state = "finished" → g2.winner = (if g2.scores.team1 ≥ 1000 then 1 else 2)) := by
  simp only [handlePlayerWin] at heq
  split at heq
  · rcases handleWinBody_end_spec _ _ _ heq hre with hof | hspec
    · rw [hof] at hend; exact absurd hend (by decide)
    · exact hspec
  · rcases handleWinBody_end_spec _ _ _ heq hre with hof | hspec
    · rw [hof] at hend; exact absurd hend (by decide)
    · exact hspec


/-- C5 witness: the amended winner rule applied at the concrete
double-victory state `gameC5x`. -/
theorem C5_match_end_winner_rule_witness :
    ((handlePlayerWin (fun x => x) gameC5x "p2").2.state = "finished" ↔
      ((handlePlayerWin (fun x => x) gameC5x "p2").2.scores.team1 ≥ 1000 ∨
       (handlePlayerWin (fun x => x) gameC5x "p2").2.scores.team2 ≥ 1000)) ∧
    ((handlePlayerWin (fun x => x) gameC5x "p2").2.state = "finished" →
      (handlePlayerWin (fun x => x) gameC5x "p2").2.winner =
        (if (handlePlayerWin (fun x => x) gameC5x "p2").2.scores.team1 ≥ 1000 then 1
         else 2)) :=
  C5_match_end_winner_rule gameC5x "p2" (handlePlayerWin (fun x => x) gameC5x "p2").1
    (handlePlayerWin (fun x => x) gameC5x "p2").2 rfl (by decide) (by decide)

/-- C7 (amended).  The exact validity rule of `validatePair` on a
two-card set: a pair is valid iff the two cards have the same
rank-or-name, or both are special cards (so any two distinct specials
pass), or exactly one of the two is the Phoenix. -/
theorem C7_pair_validity_rule (c1 c2 : Card) :
    (validatePair [c1, c2]).valid = true ↔
      (rankOr c1 = rankOr c2 ∨ (c1.type = "special" ∧ c2.type = "special") ∨
        ((c1.name = "phoenix" ∨ c2.name = "phoenix") ∧
          ¬ (c1.name = "phoenix" ∧ c2.name = "phoenix"))) := by
  by_cases hA : rankOr c1 = rankOr c2 ∨ (c1.type = "special" ∧ c2.type = "special")
  · simp only [validatePair, hA, if_pos]
    simp only [Combination.valid, true_iff]
    tauto
  · by_cases h1 : c1.name = "phoenix" <;> by_cases h2 : c2.name = "phoenix"
    · simp [validatePair, invalidC, hA, h1, h2, List.find?]
    · have hb2 : (c2.name != "phoenix") = true := by simp [bne_iff_ne, h2]
      have hb1 : (c1.name != "phoenix") = false := by simp [bne, h1]
      simp [validatePair, hA, h1, h2, List.find?, hb1, hb2]
    · have hb1 : (c1.name != "phoenix") = true := by simp [bne_iff_ne, h1]
      simp [validatePair, hA, h1, h2, List.find?, hb1]
    · simp [validatePair, invalidC, hA, h1, h2, List.find?]

/-- `findIndexP` cannot miss when some element satisfies the predicate. -/
lemma findIndexP_ne_none_of_any {α : Type} (l : List α) (p : α → Bool)
    (h : l.any p = true) : findIndexP l p ≠ none := by
  induction l with
  | nil => simp at h
  | cons x xs ih =>
    simp only [List.any_cons, Bool.or_eq_true] at h
    simp only [findIndexP]
    rcases h with h | h
    · simp [h]
    · split
      · simp
      · intro hmap
        rcases hfi : findIndexP xs p with _ | v
        · exact ih h hfi
        · rw [hfi] at hmap; simp at hmap

/-- A member of a player list satisfies the id-search over that list. -/
lemma any_id_of_mem (l : List Player) (q : Player) (hq : q ∈ l) :
    l.any (fun p => p.id == q.id) = true :=
  List.any_eq_true.mpr ⟨q, hq, by simp⟩

/-- Pair eta for `winTrick`, used to expose its components. -/
lemma winTrick_pair (g : Game) (w : String) :
    winTrick g w = ((winTrick g w).1, (winTrick g w).2) := rfl

/-- `winTrick` always reports success. -/
lemma winTrick_success (g : Game) (w : String) : (winTrick g w).1.success = true := by
  simp only [winTrick]
  repeat' split
  all_goals rfl

/-- `handleWinRest` always reports success. -/
lemma handleWinRest_success (nr : Game → Game) (h : Game) :
    (handleWinRest nr h).1.success = true := by
  simp only [handleWinRest]
  repeat' split
  all_goals rfl

/-- `handleWinBody` always reports success. -/
lemma handleWinBody_success (nr : Game → Game) (g1 : Game) :
    (handleWinBody nr g1).1.success = true := by
  simp only [handleWinBody]
  repeat' split
  all_goals first | rfl | apply handleWinRest_success

/-- `handlePlayerWin` always reports success. -/
lemma handlePlayerWin_success (nr : Game → Game) (g : Game) (pid : String) :
    (handlePlayerWin nr g pid).1.success = true :=
  handleWinBody_success nr _

/-- A player found by `getNextPlayerWithCards` comes from the turn order. -/
lemma getNextPlayerWithCards_mem (g : Game) (s : String) (p : Player)
    (h : getNextPlayerWithCards g s = some p) : p ∈ g.turnOrder := by
  simp only [getNextPlayerWithCards] at h
  split at h
  · exact List.mem_of_find?_eq_some h
  · obtain ⟨i, _, hi⟩ := List.exists_of_findSome?_eq_some h
    split at hi
    · next hget =>
      split at hi
      · cases hi; exact List.get?_mem hget
      · cases hi
    · cases hi

/-- Without a Dog in the played cards `handleSpecialCards` cannot fail. -/
lemma handleSpecialCards_no_dog_no_error (g : Game) (pid : String) (cards : List Card)
    (combo : Combination) (h : cards.any (fun c => c.name == "dog") = false) :
    (handleSpecialCards g pid cards combo).1 = none := by
  simp only [handleSpecialCards]
  rw [h]
  simp

/-- An error out of `handleSpecialCards` implies a Dog among the cards. -/
lemma handleSpecialCards_error_dog (g : Game) (pid : String) (cards : List Card)
    (combo : Combination) (e : String)
    (h : (handleSpecialCards g pid cards combo).1 = some e) :
    cards.any (fun c => c.name == "dog") = true := by
  by_cases hd : cards.any (fun c => c.name == "dog") = true
  · exact hd
  · exfalso
    have hb : cards.any (fun c => c.name == "dog") = false := by
      simpa using hd
    rw [handleSpecialCards_no_dog_no_error g pid cards combo hb] at h
    simp at h

/-- When every player occurs in the turn order, `handleSpecialCards` either
succeeds or leaves the state exactly as given. -/
lemma handleSpecialCards_spec (g : Game) (pid : String) (cards : List Card)
    (combo : Combination)
    (hwf1 : g.players.all (fun p => g.turnOrder.any (fun q => q.id == p.id)) = true) :
    (handleSpecialCards g pid cards combo).1 = none ∨
    (handleSpecialCards g pid cards combo).2.2 = g := by
  simp only [handleSpecialCards]
  split
  · split
    · right; rfl
    · split
      · right; rfl
      · next player hplayer =>
        split
        · next nextLead hnl =>
          split
          · left; rfl
          · next hidx =>
            exfalso
            apply findIndexP_ne_none_of_any _ _ _ hidx
            split at hnl
            · next partner hpartner =>
              split at hnl
              · cases hnl
                exact List.all_eq_true.mp hwf1 _ (List.mem_of_find?_eq_some hpartner)
              · exact any_id_of_mem _ _ (getNextPlayerWithCards_mem _ _ _ hnl)
            · exact any_id_of_mem _ _ (getNextPlayerWithCards_mem _ _ _ hnl)
        · right; rfl
  · left; split <;> rfl

/-- `handleSpecialCards` never touches the turn order. -/
lemma handleSpecialCards_turnOrder (g : Game) (pid : String) (cards : List Card)
    (combo : Combination) :
    (handleSpecialCards g pid cards combo).2.2.turnOrder = g.turnOrder := by
  simp only [handleSpecialCards]
  repeat' split
  all_goals rfl

/-- `handleSpecialCards` never touches the current trick. -/
lemma handleSpecialCards_currentTrick (g : Game) (pid : String) (cards : List Card)
    (combo : Combination) :
    (handleSpecialCards g pid cards combo).2.2.currentTrick = g.currentTrick := by
  simp only [handleSpecialCards]
  repeat' split
  all_goals rfl

/-- `handleSpecialCards` never touches the Mah Jong wish. -/
lemma handleSpecialCards_mahJongWish (g : Game) (pid : String) (cards : List Card)
    (combo : Combination) :
    (handleSpecialCards g pid cards combo).2.2.mahJongWish = g.mahJongWish := by
  simp only [handleSpecialCards]
  repeat' split
  all_goals rfl

lemma validatePair_not_single (cs : List Card) : (validatePair cs).type ≠ "single" := by
  simp only [validatePair]
  repeat' split
  all_goals intro h
  all_goals (try simp only [invalidC] at h)
  all_goals exact absurd h (by decide)

lemma validateTriple_not_single (cs : List Card) : (validateTriple cs).type ≠ "single" := by
  simp only [validateTriple]
  repeat' split
  all_goals intro h
  all_goals (try simp only [invalidC] at h)
  all_goals exact absurd h (by decide)

lemma validateSequenceOfPairs_not_single (cs : List Card) :
    (validateSequenceOfPairs cs).type ≠ "single" := by
  simp only [validateSequenceOfPairs]
  repeat' split
  all_goals intro h
  all_goals (try simp only [invalidC] at h)
  all_goals exact absurd h (by decide)

lemma validateFullHouse_not_single (cs : List Card) :
    (validateFullHouse cs).type ≠ "single" := by
  simp only [validateFullHouse]
  repeat' split
  all_goals intro h
  all_goals (try simp only [invalidC] at h)
  all_goals exact absurd h (by decide)

lemma validateBomb_not_single (cs : List Card) : (validateBomb cs).type ≠ "single" := by
  simp only [validateBomb]
  repeat' split
  all_goals intro h
  all_goals (try simp only [invalidC] at h)
  all_goals exact absurd h (by decide)

lemma validateStraightFlush_not_single (cs : List Card) :
    (validateStraightFlush cs).type ≠ "single" := by
  simp only [validateStraightFlush]
  repeat' split
  all_goals intro h
  all_goals (try simp only [invalidC] at h)
  all_goals exact absurd h (by decide)

lemma validateStraight_not_single (cs : List Card) :
    (validateStraight cs).type ≠ "single" := by
  simp only [validateStraight]
  repeat' split
  all_goals intro h
  all_goals (try simp only [invalidC] at h)
  all_goals exact absurd h (by decide)

lemma validateCombination_single_length (cards : List Card)
    (h : (validateCombination cards).type = "single") : cards.length = 1 := by
  simp only [validateCombination] at h
  repeat' split at h
  all_goals (try simp only [invalidC] at h)
  all_goals first
    | assumption
    | exact absurd h (by decide)
    | exact absurd h (validatePair_not_single cards)
    | exact absurd h (validateTriple_not_single cards)
    | exact absurd h (validateSequenceOfPairs_not_single cards)
    | exact absurd h (validateFullHouse_not_single cards)
    | exact absurd h (validateBomb_not_single cards)
    | exact absurd h (validateStraightFlush_not_single cards)
    | exact absurd h (validateStraight_not_single cards)

lemma makeMovePass_spec (g : Game) (pid : String) (res : MoveRes) (g2 : Game)
    (heq : makeMovePass g pid = (res, g2))
    (hwf3 : g.currentTrick.all (fun pl => g.turnOrder.any (fun q => q.id == pl.playerId)) = true)
    (hrej : res.success = false) :
    g2 = g ∨ (g.currentTrick = [] ∧
      g2 = { g with passedPlayers := g.passedPlayers ++ [pid] }) := by
  simp only [makeMovePass] at heq
  repeat' split at heq
  all_goals try (rw [winTrick_pair] at heq)
  all_goals injection heq with h1 h2
  all_goals subst h2
  all_goals try exact Or.inl rfl
  all_goals try (rw [← h1] at hrej; simp [winTrick_success] at hrej)
  all_goals try
    (refine Or.inr ⟨?_, rfl⟩
     rename_i hh
     exact List.head?_eq_none_iff.mp hh)
  all_goals
    (rename_i firstPlay hhd x hfi
     exact absurd hfi (findIndexP_ne_none_of_any _ _
       (List.all_eq_true.mp hwf3 _ (List.mem_of_mem_head? hhd))))

lemma makeMoveBomb_spec (nr : Game → Game) (g : Game) (pid : String) (cards : List Card)
    (validation : Combination) (res : MoveRes) (g2 : Game)
    (heq : makeMoveBomb nr g pid cards validation = (res, g2))
    (hrej : res.success = false) : g2 = g := by
  simp only [makeMoveBomb] at heq
  repeat' split at heq
  all_goals injection heq with h1 h2
  all_goals subst h2
  all_goals first
    | rfl
    | (rw [← h1] at hrej; simp [handlePlayerWin_success] at hrej)
lemma playApplyHands_currentTrick (pid : String) (cP : List Card) (gS : Game) :
    (playApplyHands pid cP gS).currentTrick = gS.currentTrick := rfl

lemma playApplyHands_turnOrder (pid : String) (cP : List Card) (gS : Game) :
    (playApplyHands pid cP gS).turnOrder = gS.turnOrder := rfl

lemma playApplyFirst_currentTrick (pid : String) (g3 : Game) :
    (playApplyFirst pid g3).currentTrick = g3.currentTrick := by
  simp only [playApplyFirst]; split <;> rfl

lemma playApplyFirst_turnOrder (pid : String) (g3 : Game) :
    (playApplyFirst pid g3).turnOrder = g3.turnOrder := by
  simp only [playApplyFirst]; split <;> rfl

lemma playApplyTrick_currentTrick (pid : String) (cP : List Card) (vP : Combination)
    (g4 : Game) : (playApplyTrick pid cP vP g4).currentTrick =
      g4.currentTrick ++ [{ playerId := pid, cards := cP, combination := vP }] := rfl

lemma playApplyTrick_turnOrder (pid : String) (cP : List Card) (vP : Combination)
    (g4 : Game) : (playApplyTrick pid cP vP g4).turnOrder = g4.turnOrder := rfl

lemma playApplyWish_currentTrick (cP : List Card) (vP : Combination) (g5 : Game) :
    (playApplyWish cP vP g5).currentTrick = g5.currentTrick := by
  simp only [playApplyWish]; repeat' split
  all_goals rfl

lemma playApplyWish_turnOrder (cP : List Card) (vP : Combination) (g5 : Game) :
    (playApplyWish cP vP g5).turnOrder = g5.turnOrder := by
  simp only [playApplyWish]; repeat' split
  all_goals rfl

lemma playApply_currentTrick (pid : String) (cP : List Card) (vP : Combination)
    (gS : Game) : (playApply pid cP vP gS).currentTrick =
      gS.currentTrick ++ [{ playerId := pid, cards := cP, combination := vP }] := by
  simp only [playApply, playApplyWish_currentTrick, playApplyTrick_currentTrick,
    playApplyFirst_currentTrick, playApplyHands_currentTrick]

lemma playApply_turnOrder (pid : String) (cP : List Card) (vP : Combination)
    (gS : Game) : (playApply pid cP vP gS).turnOrder = gS.turnOrder := by
  simp only [playApply, playApplyWish_turnOrder, playApplyTrick_turnOrder,
    playApplyFirst_turnOrder, playApplyHands_turnOrder]

lemma playClearDog_currentTrick (pid : String) (g6 : Game) :
    (playClearDog pid g6).currentTrick = g6.currentTrick := by
  simp only [playClearDog]; split <;> rfl

lemma playClearDog_turnOrder (pid : String) (g6 : Game) :
    (playClearDog pid g6).turnOrder = g6.turnOrder := by
  simp only [playClearDog]; split <;> rfl

lemma playOutAdvance_success (nr : Game → Game) (pid : String) (g6 : Game) :
    (playOutAdvance nr pid g6).1.success = true := by
  simp only [playOutAdvance]
  repeat' split
  all_goals first
    | rfl
    | exact handlePlayerWin_success _ _ _

lemma playAdvance_success (pid : String) (g7 : Game)
    (hhead : ∀ fp, g7.currentTrick.head? = some fp →
      g7.turnOrder.any (fun q => q.id == fp.playerId) = true)
    (hne : g7.currentTrick ≠ [])
    (hany : g7.currentTrick.any (fun play => play.playerId == pid) = true) :
    (playAdvance pid g7).1.success = true := by
  simp only [playAdvance]
  split
  · next hh => exact absurd (List.head?_eq_none_iff.mp hh) hne
  · next fp hh =>
    split
    · next hfi => exact absurd hfi (findIndexP_ne_none_of_any _ _ (hhead fp hh))
    · split
      · next hna => exact absurd hany hna
      · rfl

lemma afterSpecialF_success (nr : Game → Game) (pid : String) (cardsP : List Card)
    (validationP : Combination) (dw : Bool) (gS : Game)
    (hwf3 : gS.currentTrick.all (fun pl => gS.turnOrder.any (fun q => q.id == pl.playerId)) = true)
    (hpid : gS.turnOrder.any (fun q => q.id == pid) = true) :
    (afterSpecialF nr pid cardsP validationP dw gS).1.success = true := by
  have hct : (playClearDog pid (playApply pid cardsP validationP gS)).currentTrick =
      gS.currentTrick ++ [{ playerId := pid, cards := cardsP, combination := validationP }] := by
    rw [playClearDog_currentTrick, playApply_currentTrick]
  have hto : (playClearDog pid (playApply pid cardsP validationP gS)).turnOrder =
      gS.turnOrder := by
    rw [playClearDog_turnOrder, playApply_turnOrder]
  simp only [afterSpecialF]
  split
  · exact playOutAdvance_success nr pid _
  · split
    · apply playAdvance_success
      · intro fp hfp
        rw [hct] at hfp
        rw [hto]
        rcases hgt : gS.currentTrick with _ | ⟨a, l⟩
        · rw [hgt] at hfp
          simp at hfp
          rw [← hfp]
          exact hpid
        · rw [hgt] at hfp
          simp at hfp
          rw [← hfp]
          have := List.all_eq_true.mp hwf3 a (by rw [hgt]; exact List.mem_cons_self a l)
          exact this
      · rw [hct]; simp
      · rw [hct]; simp
    · rfl

lemma afterSpecialF_pair (nr : Game → Game) (pid : String) (cardsP : List Card)
    (validationP : Combination) (dw : Bool) (gS : Game) :
    afterSpecialF nr pid cardsP validationP dw gS =
      ((afterSpecialF nr pid cardsP validationP dw gS).1,
       (afterSpecialF nr pid cardsP validationP dw gS).2) := rfl

lemma afterSpecialW_success (nr : Game → Game) (pid : String) (cardsP : List Card)
    (validationP : Combination) (gW : Game)
    (hwf3 : gW.currentTrick.all (fun pl => gW.turnOrder.any (fun q => q.id == pl.playerId)) = true)
    (hpid : gW.turnOrder.any (fun q => q.id == pid) = true) :
    (afterSpecialF nr pid cardsP validationP
      (handleSpecialCards gW pid cardsP validationP).2.1
      (handleSpecialCards gW pid cardsP validationP).2.2).1.success = true := by
  apply afterSpecialF_success
  · rw [handleSpecialCards_currentTrick, handleSpecialCards_turnOrder]; exact hwf3
  · rw [handleSpecialCards_turnOrder]; exact hpid

lemma handleSpecialCards_reject_state (gW : Game) (pid : String) (cc : List Card)
    (vv : Combination) (e : String)
    (hwf1 : gW.players.all (fun p => gW.turnOrder.any (fun q => q.id == p.id)) = true)
    (hsp : (handleSpecialCards gW pid cc vv).1 = some e) :
    (handleSpecialCards gW pid cc vv).2.2 = gW := by
  rcases handleSpecialCards_spec gW pid cc vv hwf1 with h | h
  · rw [h] at hsp; cases hsp
  · exact h

lemma afterWishF_spec (nr : Game → Game) (pid : String) (cards : List Card)
    (validation : Combination) (gW : Game) (res : MoveRes) (g2 : Game)
    (heq : afterWishF nr pid cards validation gW = (res, g2))
    (hwf1 : gW.players.all (fun p => gW.turnOrder.any (fun q => q.id == p.id)) = true)
    (hwf3 : gW.currentTrick.all (fun pl => gW.turnOrder.any (fun q => q.id == pl.playerId)) = true)
    (hpid : gW.turnOrder.any (fun q => q.id == pid) = true)
    (hrej : res.success = false) :
    g2 = gW ∧ cards.any (fun c => c.name == "dog") = true := by
  simp only [afterWishF] at heq
  repeat'
    first
      | split at heq
      | (dsimp only [] at heq)
  all_goals try (rw [afterSpecialF_pair] at heq)
  all_goals injection heq with h1 h2
  all_goals subst h2
  all_goals try
    (rw [← h1] at hrej
     rw [afterSpecialW_success nr pid _ _ gW hwf3 hpid] at hrej
     exact absurd hrej (by decide))
  all_goals first
    | (rename_i hsp hcond
       simp only [if_pos hcond] at hsp
       exact ⟨handleSpecialCards_reject_state gW pid _ _ _ hwf1 hsp,
         handleSpecialCards_error_dog gW pid _ _ _ hsp⟩)
    | (rename_i hsp hcond
       simp only [if_neg hcond] at hsp
       exact ⟨handleSpecialCards_reject_state gW pid _ _ _ hwf1 hsp,
         handleSpecialCards_error_dog gW pid _ _ _ hsp⟩)

/-- C2: a rejected Play or Pass intent leaves the state unchanged, except
that a rejected pass on an empty trick appends the passer to
`passedPlayers`, and a rejected play of a Mah-Jong straight containing the
Dog sets `mahJongPlayed` and clears `mahJongWish` before the rejection. -/
theorem C2_rejection_near_purity (nr : Game → Game) (g : Game) (pid : String)
    (cards : List Card) (action : String) (wishArg : Option String)
    (res : MoveRes) (g2 : Game)
    (heq : makeMove nr g pid cards action wishArg = (res, g2))
    (hwf : wfTurn g = true) (hrej : res.success = false) :
    g2 = g ∨
    (action = "pass" ∧ g.currentTrick = [] ∧
      g2 = { g with passedPlayers := g.passedPlayers ++ [pid] }) ∨
    (action ≠ "pass" ∧ cards.any (fun c => c.name == "mahjong") = true ∧
      (validateCombination cards).type = "straight" ∧
      cards.any (fun c => c.name == "dog") = true ∧
      g2 = { g with mahJongPlayed := true, mahJongWish := none }) := by
  have hwf' := hwf
  unfold wfTurn at hwf'
  rw [Bool.and_eq_true] at hwf'
  obtain ⟨hwf1, hwf3⟩ := hwf'
  rw [makeMove.eq_def] at heq
  by_cases hst : g.state ≠ "playing"
  · rw [if_pos hst] at heq
    injection heq with h1 h2; subst h2; exact Or.inl rfl
  · rw [if_neg hst] at heq
    by_cases hact : action = "pass"
    · rw [if_pos hact] at heq
      rcases makeMovePass_spec g pid res g2 heq hwf3 hrej with h | ⟨ht, hg⟩
      · exact Or.inl h
      · exact Or.inr (Or.inl ⟨hact, ht, hg⟩)
    · rw [if_neg hact] at heq
      by_cases hval : ¬ ((validateCombination cards).valid = true)
      · rw [if_pos hval] at heq
        injection heq with h1 h2; subst h2; exact Or.inl rfl
      · rw [if_neg hval] at heq
        by_cases hhand : ¬ (cards.all (fun card =>
            (handOf g pid).any (fun c => cardMatches c card)) = true)
        · rw [if_pos hhand] at heq
          injection heq with h1 h2; subst h2; exact Or.inl rfl
        · rw [if_neg hhand] at heq
          by_cases hbomb : (validateCombination cards).type = "bomb"
          · rw [if_pos hbomb] at heq
            exact Or.inl (makeMoveBomb_spec nr g pid cards _ res g2 heq hrej)
          · rw [if_neg hbomb] at heq
            split at heq
            · injection heq with h1 h2; subst h2; exact Or.inl rfl
            · next currentPlayer hcp =>
              split at heq
              · injection heq with h1 h2; subst h2; exact Or.inl rfl
              · next hid =>
                have hcid : currentPlayer.id = pid := not_not.mp hid
                have hpid : g.turnOrder.any (fun q => q.id == pid) = true :=
                  List.any_eq_true.mpr ⟨currentPlayer, List.get?_mem hcp, by simp [hcid]⟩
                split at heq
                · injection heq with h1 h2; subst h2; exact Or.inl rfl
                · split at heq
                  · injection heq with h1 h2; subst h2; exact Or.inl rfl
                  · split at heq
                    · next hcond =>
                      split at heq
                      · injection heq with h1 h2; subst h2; exact Or.inl rfl
                      · next w hw =>
                        split at heq
                        · injection heq with h1 h2; subst h2; exact Or.inl rfl
                        · exfalso
                          obtain ⟨hg2, hdog⟩ :=
                            afterWishF_spec nr pid cards _ _ res g2 heq hwf1 hwf3 hpid hrej
                          obtain ⟨hmj, hsing, htr⟩ := hcond
                          have hlen := validateCombination_single_length cards hsing
                          rcases cards with _ | ⟨c, rest⟩
                          · simp at hmj
                          · rcases rest with _ | ⟨d, t⟩
                            · simp at hmj hdog
                              exact absurd (hmj.symm.trans hdog) (by decide)
                            · simp at hlen
                    · next hcond1 =>
                      split at heq
                      · next hcond2 =>
                        obtain ⟨hg2, hdog⟩ :=
                          afterWishF_spec nr pid cards _ _ res g2 heq hwf1 hwf3 hpid hrej
                        exact Or.inr (Or.inr ⟨hact, hcond2.1, hcond2.2, hdog, hg2⟩)
                      · obtain ⟨hg2, hdog⟩ :=
                          afterWishF_spec nr pid cards _ _ res g2 heq hwf1 hwf3 hpid hrej
                        exact Or.inl hg2

/-- Witness for C2: the rejected pass of `gameC2x` (current seat `pB`,
empty trick) lands in the `passedPlayers`-push exception of the theorem. -/
theorem C2_rejection_near_purity_witness :
    (makeMove (fun x => x) gameC2x "pB" [] "pass" none).2 = gameC2x ∨
    ("pass" = "pass" ∧ gameC2x.currentTrick = [] ∧
      (makeMove (fun x => x) gameC2x "pB" [] "pass" none).2 =
        { gameC2x with passedPlayers := gameC2x.passedPlayers ++ ["pB"] }) ∨
    ("pass" ≠ "pass" ∧ ([] : List Card).any (fun c => c.name == "mahjong") = true ∧
      (validateCombination []).type = "straight" ∧
      ([] : List Card).any (fun c => c.name == "dog") = true ∧
      (makeMove (fun x => x) gameC2x "pB" [] "pass" none).2 =
        { gameC2x with mahJongPlayed := true, mahJongWish := none }) :=
  C2_rejection_near_purity (fun x => x) gameC2x "pB" [] "pass" none
    (makeMove (fun x => x) gameC2x "pB" [] "pass" none).1
    (makeMove (fun x => x) gameC2x "pB" [] "pass" none).2
    rfl (by decide) (by decide)

lemma getA_setA_self {α : Type} (l : List (String × α)) (k : String) (v : α) :
    getA (setA l k v) k = some v := by
  induction l with
  | nil => simp [setA, getA]
  | cons p rest ih =>
    obtain ⟨q, w⟩ := p
    simp only [setA]
    split
    · next h => simp [getA, h]
    · next h => simp [getA, h, ih]

lemma playApplyHands_mahJongWish (pid : String) (cP : List Card) (gS : Game) :
    (playApplyHands pid cP gS).mahJongWish = gS.mahJongWish := rfl

lemma playApplyFirst_mahJongWish (pid : String) (g3 : Game) :
    (playApplyFirst pid g3).mahJongWish = g3.mahJongWish := by
  simp only [playApplyFirst]; split <;> rfl

lemma playApplyTrick_mahJongWish (pid : String) (cP : List Card) (vP : Combination)
    (g4 : Game) : (playApplyTrick pid cP vP g4).mahJongWish = g4.mahJongWish := rfl

lemma playApplyWish_mahJongWish_keep (cP : List Card) (vP : Combination) (g5 : Game)
    (h : (cP.headD {}).type ≠ "standard") :
    (playApplyWish cP vP g5).mahJongWish = g5.mahJongWish := by
  simp only [playApplyWish]
  split
  · split
    · next hc => exact absurd hc.2.2.1 h
    · rfl
  · rfl

lemma playApply_mahJongWish_keep (pid : String) (cP : List Card) (vP : Combination)
    (gS : Game) (h : (cP.headD {}).type ≠ "standard") :
    (playApply pid cP vP gS).mahJongWish = gS.mahJongWish := by
  simp only [playApply, playApplyWish_mahJongWish_keep _ _ _ h,
    playApplyTrick_mahJongWish, playApplyFirst_mahJongWish, playApplyHands_mahJongWish]

lemma playApplyFirst_hands (pid : String) (g3 : Game) :
    (playApplyFirst pid g3).hands = g3.hands := by
  simp only [playApplyFirst]; split <;> rfl

lemma playApplyWish_hands (cP : List Card) (vP : Combination) (g5 : Game) :
    (playApplyWish cP vP g5).hands = g5.hands := by
  simp only [playApplyWish]
  repeat' split
  all_goals rfl

lemma playApplyTrick_hands (pid : String) (cP : List Card) (vP : Combination)
    (g4 : Game) : (playApplyTrick pid cP vP g4).hands = g4.hands := rfl

lemma playApply_hands (pid : String) (cP : List Card) (vP : Combination) (gS : Game) :
    (playApply pid cP vP gS).hands =
      setA gS.hands pid (removeCards (handOf gS pid) cP) := by
  simp only [playApply, playApplyWish_hands, playApplyTrick_hands, playApplyFirst_hands,
    playApplyHands]

lemma playApply_handOf (pid : String) (cP : List Card) (vP : Combination) (gS : Game) :
    handOf (playApply pid cP vP gS) pid = removeCards (handOf gS pid) cP := by
  simp only [handOf, playApply_hands, getA_setA_self, Option.getD_some]

lemma playClearDog_mahJongWish (pid : String) (g6 : Game) :
    (playClearDog pid g6).mahJongWish = g6.mahJongWish := by
  simp only [playClearDog]; split <;> rfl

lemma playAdvance_snd_mahJongWish (pid : String) (g7 : Game) :
    ((playAdvance pid g7).2).mahJongWish = g7.mahJongWish := by
  simp only [playAdvance]
  repeat' split
  all_goals rfl

lemma handleSpecialCards_plain (g : Game) (pid : String) (cs : List Card)
    (cb : Combination) (hd : cs.any (fun c => c.name == "dog") = false)
    (hg : ¬ (cs.any (fun c => c.name == "dragon") = true ∧ cb.type = "single")) :
    handleSpecialCards g pid cs cb = (none, false, g) := by
  simp only [handleSpecialCards]
  rw [hd, if_neg (show ¬ (false = true) by simp), if_neg hg]

/-- An accepted play of Mah Jong as a single onto an empty trick must
name a wish rank from 2-A, and the wish is recorded as
`{ wishedRank, mustPlay := true }` in the resulting state (stated for a
player who keeps at least one card, so that the round does not end). -/
lemma makeMove_wish_requirement (nr : Game → Game) (g : Game) (pid : String)
    (cards : List Card) (action : String) (wishArg : Option String)
    (res : MoveRes) (g2 : Game)
    (heq : makeMove nr g pid cards action wishArg = (res, g2))
    (hact : action ≠ "pass")
    (hmj : cards.any (fun c => c.name == "mahjong") = true)
    (hsingle : (validateCombination cards).type = "single")
    (hempty : g.currentTrick = [])
    (hspec : (cards.headD {}).type = "special")
    (hleft : removeCards (handOf g pid) cards ≠ [])
    (hok : res.success = true) :
    ∃ w, wishArg = some w ∧ validRanks.contains w = true ∧
      g2.mahJongWish = some { wishedRank := w, mustPlay := true } := by
  have hlen := validateCombination_single_length cards hsingle
  rcases cards with _ | ⟨c, rest⟩
  · exact absurd hmj (by simp)
  rcases rest with _ | ⟨d, t⟩
  case cons.cons => exact absurd hlen (by simp)
  have hcn : c.name = "mahjong" := by simpa using hmj
  have hctype : c.type = "special" := hspec
  rw [makeMove.eq_def] at heq
  by_cases hst : g.state ≠ "playing"
  · rw [if_pos hst] at heq
    injection heq with h1 h2
    rw [← h1] at hok
    simp at hok
  rw [if_neg hst, if_neg hact] at heq
  rw [if_neg (show ¬ ¬ ((validateCombination [c]).valid = true) from fun hh => hh rfl)] at heq
  by_cases hhand : ¬ (([c] : List Card).all (fun card =>
      (handOf g pid).any (fun cc => cardMatches cc card)) = true)
  · rw [if_pos hhand] at heq
    injection heq with h1 h2
    rw [← h1] at hok
    simp at hok
  rw [if_neg hhand] at heq
  rw [if_neg (show ¬ ((validateCombination [c]).type = "bomb") from
    fun hh => absurd (hsingle.symm.trans hh) (by decide))] at heq
  split at heq
  · injection heq with h1 h2
    rw [← h1] at hok
    simp at hok
  · next currentPlayer hcp =>
    split at heq
    · injection heq with h1 h2
      rw [← h1] at hok
      simp at hok
    · next hid =>
      split at heq
      · injection heq with h1 h2
        rw [← h1] at hok
        simp at hok
      · split at heq
        · injection heq with h1 h2
          rw [← h1] at hok
          simp at hok
        · rw [if_pos ⟨hmj, hsingle, hempty⟩] at heq
          rcases wishArg with _ | w
          · dsimp only [] at heq
            injection heq with h1 h2
            rw [← h1] at hok
            simp at hok
          · dsimp only [] at heq
            by_cases hvr : ¬ (validRanks.contains w = true)
            · rw [if_pos hvr] at heq
              injection heq with h1 h2
              rw [← h1] at hok
              simp at hok
            · rw [if_neg hvr] at heq
              simp only [afterWishF] at heq
              rw [if_neg (show ¬ ((validateCombination [c]).type = "single" ∧
                  (([c] : List Card).headD {}).name = "phoenix") from
                fun hh => absurd (hcn.symm.trans (hh.2 : c.name = "phoenix")) (by decide))] at heq
              dsimp only [] at heq
              rw [handleSpecialCards_plain _ pid [c] _
                (by simp [hcn])
                (fun hh => by simp [hcn] at hh)] at heq
              dsimp only [] at heq
              simp only [afterSpecialF] at heq
              rw [if_neg (show ¬ ((handOf (playApply pid [c] (validateCombination [c])
                  { g with
                    mahJongWish := some { wishedRank := w, mustPlay := true }
                    mahJongPlayed := true }) pid).isEmpty = true ∧ ¬ false = true) from by
                rw [playApply_handOf]
                intro hh
                exact hleft (by simpa using hh.1))] at heq
              rw [if_pos (show ¬ false = true from by decide)] at heq
              have hg2 : g2 = (playAdvance pid (playClearDog pid (playApply pid [c]
                  (validateCombination [c])
                  { g with
                    mahJongWish := some { wishedRank := w, mustPlay := true }
                    mahJongPlayed := true }))).2 := by rw [heq]
              refine ⟨w, rfl, not_not.mp hvr, ?_⟩
              rw [hg2, playAdvance_snd_mahJongWish, playClearDog_mahJongWish,
                playApply_mahJongWish_keep _ _ _ _ (show (([c] : List Card).headD {}).type ≠
                  "standard" from fun hh => absurd (hctype.symm.trans (hh : c.type = "standard"))
                  (by decide))]

lemma startNewTrick_mahJongWish (g : Game) :
    (startNewTrick g).mahJongWish = g.mahJongWish := by
  simp only [startNewTrick]
  repeat' split
  all_goals rfl

lemma winTrick_snd_mahJongWish (g : Game) (w : String) :
    ((winTrick g w).2).mahJongWish = g.mahJongWish := by
  simp only [winTrick]
  repeat' split
  all_goals first
    | rfl
    | exact startNewTrick_mahJongWish _

lemma stackSumStep_mahJongWish (a : Game) (p : Player) :
    (stackSumStep a p).mahJongWish = a.mahJongWish := by
  simp only [stackSumStep]
  split <;> rfl

lemma foldl_stackSumStep_mahJongWish (l : List Player) (a : Game) :
    (l.foldl stackSumStep a).mahJongWish = a.mahJongWish := by
  induction l generalizing a with
  | nil => rfl
  | cons p rest ih => simp only [List.foldl_cons]; rw [ih, stackSumStep_mahJongWish]

lemma tichuAdjustStep_mahJongWish (h : Game) (p : Player) :
    (tichuAdjustStep h p).mahJongWish = h.mahJongWish := by
  simp only [tichuAdjustStep]
  repeat' split
  all_goals rfl

lemma foldl_tichuAdjustStep_mahJongWish (l : List Player) (a : Game) :
    (l.foldl tichuAdjustStep a).mahJongWish = a.mahJongWish := by
  induction l generalizing a with
  | nil => rfl
  | cons p rest ih => simp only [List.foldl_cons]; rw [ih, tichuAdjustStep_mahJongWish]

lemma applyTichuAdjust_mahJongWish (g : Game) :
    (applyTichuAdjust g).mahJongWish = g.mahJongWish :=
  foldl_tichuAdjustStep_mahJongWish _ _

lemma dvOutStep_mahJongWish (h : Game) (p : Player) :
    (dvOutStep h p).mahJongWish = h.mahJongWish := by
  simp only [dvOutStep]
  repeat' split
  all_goals rfl

lemma foldl_dvOutStep_mahJongWish (l : List Player) (a : Game) :
    (l.foldl dvOutStep a).mahJongWish = a.mahJongWish := by
  induction l generalizing a with
  | nil => rfl
  | cons p rest ih => simp only [List.foldl_cons]; rw [ih, dvOutStep_mahJongWish]

lemma foldAndCheck_id_mahJongWish (g : Game) :
    (foldAndCheck (fun x => x) g).mahJongWish = g.mahJongWish := by
  simp only [foldAndCheck]
  split <;> rfl

lemma handleWinRest_id_mahJongWish (h : Game) :
    ((handleWinRest (fun x => x) h).2).mahJongWish = h.mahJongWish := by
  simp only [handleWinRest]
  repeat' split
  all_goals first
    | rfl
    | (simp only [foldAndCheck_id_mahJongWish, applyTichuAdjust_mahJongWish,
        foldl_stackSumStep_mahJongWish])

lemma handleWinBody_id_mahJongWish (g1 : Game) :
    ((handleWinBody (fun x => x) g1).2).mahJongWish = g1.mahJongWish := by
  simp only [handleWinBody]
  repeat' split
  all_goals first
    | exact handleWinRest_id_mahJongWish _
    | (simp only [foldAndCheck_id_mahJongWish, applyTichuAdjust_mahJongWish,
        foldl_dvOutStep_mahJongWish])

lemma handlePlayerWin_id_mahJongWish (g : Game) (pid : String) :
    ((handlePlayerWin (fun x => x) g pid).2).mahJongWish = g.mahJongWish := by
  simp only [handlePlayerWin]
  split
  · exact handleWinBody_id_mahJongWish _
  · exact handleWinBody_id_mahJongWish _

lemma makeMovePass_mahJongWish (g : Game) (pid : String) (res : MoveRes) (g2 : Game)
    (heq : makeMovePass g pid = (res, g2)) : g2.mahJongWish = g.mahJongWish := by
  simp only [makeMovePass] at heq
  repeat' split at heq
  all_goals try (rw [winTrick_pair] at heq)
  all_goals injection heq with h1 h2
  all_goals subst h2
  all_goals first
    | rfl
    | exact winTrick_snd_mahJongWish _ _

lemma makeMoveBomb_id_mahJongWish (g : Game) (pid : String) (cards : List Card)
    (validation : Combination) (res : MoveRes) (g2 : Game)
    (heq : makeMoveBomb (fun x => x) g pid cards validation = (res, g2)) :
    g2.mahJongWish = g.mahJongWish := by
  simp only [makeMoveBomb] at heq
  repeat' split at heq
  all_goals injection heq with h1 h2
  all_goals subst h2
  all_goals first
    | rfl
    | exact handlePlayerWin_id_mahJongWish _ _

lemma playApplyWish_mahJongWish_eq (cP : List Card) (vP : Combination) (g5 : Game)
    (wr : String)
    (h5 : g5.mahJongWish = some { wishedRank := wr, mustPlay := true }) :
    (playApplyWish cP vP g5).mahJongWish =
      if vP.type = "single" ∧ (cP.headD {}).type = "standard" ∧
          (cP.headD {}).rank = wr
      then none else some { wishedRank := wr, mustPlay := true } := by
  simp only [playApplyWish, h5]
  split
  · next hc => rw [if_pos ⟨hc.2.1, hc.2.2.1, hc.2.2.2⟩]
  · next hc =>
    rw [if_neg (fun hr => hc ⟨by trivial, hr.1, hr.2.1, hr.2.2⟩)]
    exact h5

lemma playApply_mahJongWish_eq (pid : String) (cP : List Card) (vP : Combination)
    (gS : Game) (wr : String)
    (h : gS.mahJongWish = some { wishedRank := wr, mustPlay := true }) :
    (playApply pid cP vP gS).mahJongWish =
      if vP.type = "single" ∧ (cP.headD {}).type = "standard" ∧
          (cP.headD {}).rank = wr
      then none else some { wishedRank := wr, mustPlay := true } := by
  simp only [playApply]
  rw [playApplyWish_mahJongWish_eq _ _ _ wr
    (by rw [playApplyTrick_mahJongWish, playApplyFirst_mahJongWish,
          playApplyHands_mahJongWish]; exact h)]

lemma playOutAdvance_id_snd_mahJongWish (pid : String) (g6 : Game) :
    ((playOutAdvance (fun x => x) pid g6).2).mahJongWish = g6.mahJongWish := by
  simp only [playOutAdvance]
  repeat' split
  all_goals first
    | exact (handlePlayerWin_id_mahJongWish _ _).trans (winTrick_snd_mahJongWish _ _)
    | exact handlePlayerWin_id_mahJongWish _ _

lemma afterSpecialF_id_snd_mahJongWish (pid : String) (cardsP : List Card)
    (validationP : Combination) (dw : Bool) (gS : Game) :
    ((afterSpecialF (fun x => x) pid cardsP validationP dw gS).2).mahJongWish =
      (playApply pid cardsP validationP gS).mahJongWish := by
  simp only [afterSpecialF]
  split
  · exact playOutAdvance_id_snd_mahJongWish _ _
  · split
    · rw [playAdvance_snd_mahJongWish, playClearDog_mahJongWish]
    · exact playClearDog_mahJongWish _ _

lemma makeMove_wish_step (g : Game) (pid : String) (cards : List Card) (action : String)
    (wishArg : Option String) (wr : String) (res : MoveRes) (g2 : Game)
    (heq : makeMove (fun x => x) g pid cards action wishArg = (res, g2))
    (hwish : g.mahJongWish = some { wishedRank := wr, mustPlay := true })
    (hnomj : cards.any (fun c => c.name == "mahjong") = false)
    (hok : res.success = true) :
    g2.mahJongWish =
      if action ≠ "pass" ∧ (validateCombination cards).type = "single" ∧
          (cards.headD {}).type = "standard" ∧ (cards.headD {}).rank = wr
      then none else some { wishedRank := wr, mustPlay := true } := by
  have hws : ∀ (cc : List Card) (vv : Combination),
      ((handleSpecialCards g pid cc vv).2.2).mahJongWish =
        some { wishedRank := wr, mustPlay := true } := fun cc vv => by
    rw [handleSpecialCards_mahJongWish]; exact hwish
  rw [makeMove.eq_def] at heq
  by_cases hst : g.state ≠ "playing"
  · rw [if_pos hst] at heq
    injection heq with h1 h2
    rw [← h1] at hok
    simp at hok
  rw [if_neg hst] at heq
  by_cases hact : action = "pass"
  · rw [if_pos hact] at heq
    rw [makeMovePass_mahJongWish g pid res g2 heq, hwish,
      if_neg (fun hc => hc.1 hact)]
  rw [if_neg hact] at heq
  by_cases hval : ¬ ((validateCombination cards).valid = true)
  · rw [if_pos hval] at heq
    injection heq with h1 h2
    rw [← h1] at hok
    simp at hok
  rw [if_neg hval] at heq
  by_cases hhand : ¬ (cards.all (fun card =>
      (handOf g pid).any (fun cc => cardMatches cc card)) = true)
  · rw [if_pos hhand] at heq
    injection heq with h1 h2
    rw [← h1] at hok
    simp at hok
  rw [if_neg hhand] at heq
  by_cases hbomb : (validateCombination cards).type = "bomb"
  · rw [if_pos hbomb] at heq
    rw [makeMoveBomb_id_mahJongWish g pid cards _ res g2 heq, hwish,
      if_neg (fun hc => absurd hc.2.1 (by rw [hbomb]; decide))]
  rw [if_neg hbomb] at heq
  split at heq
  · injection heq with h1 h2
    rw [← h1] at hok
    simp at hok
  · split at heq
    · injection heq with h1 h2
      rw [← h1] at hok
      simp at hok
    · split at heq
      · injection heq with h1 h2
        rw [← h1] at hok
        simp at hok
      · split at heq
        · injection heq with h1 h2
          rw [← h1] at hok
          simp at hok
        · rw [if_neg (fun hc => absurd hc.1 (by rw [hnomj]; decide)),
            if_neg (fun hc => absurd hc.1 (by rw [hnomj]; decide))] at heq
          simp only [afterWishF] at heq
          repeat'
            first
              | split at heq
              | (dsimp only [] at heq)
          all_goals try (rw [afterSpecialF_pair] at heq)
          all_goals injection heq with h1 h2
          all_goals subst h2
          all_goals try (rw [← h1] at hok; simp at hok)
          all_goals rw [afterSpecialF_id_snd_mahJongWish,
            playApply_mahJongWish_eq _ _ _ _ wr (hws _ _)]
          all_goals try (simp only [List.headD_cons])
          all_goals try dsimp only []
          all_goals split
          all_goals try split
          all_goals first
            | rfl
            | (rename_i h1 h2
               first
                 | exact absurd ⟨hact, h1⟩ h2
                 | exact absurd h2.2 h1)

/-- C4: an accepted play of Mah Jong as a single onto an empty trick must
name a wish rank from 2-A and records the wish
`{ wishedRank, mustPlay := true }` (first conjunct, stated for a player who
keeps a card so the round goes on); and once a wish is active it survives
every accepted intent unchanged - passes, bombs, trick boundaries and
seats going out - and is cleared exactly when the accepted play is a
single whose first card is a standard card of the wished rank (second
conjunct, with the next-round re-deal stubbed to the identity and the
unique Mah Jong no longer among the played cards). -/
theorem C4_wish_lifecycle :
    (∀ (nr : Game → Game) (g : Game) (pid : String) (cards : List Card)
        (action : String) (wishArg : Option String) (res : MoveRes) (g2 : Game),
      makeMove nr g pid cards action wishArg = (res, g2) →
      action ≠ "pass" →
      cards.any (fun c => c.name == "mahjong") = true →
      (validateCombination cards).type = "single" →
      g.currentTrick = [] →
      (cards.headD {}).type = "special" →
      removeCards (handOf g pid) cards ≠ [] →
      res.success = true →
      ∃ w, wishArg = some w ∧ validRanks.contains w = true ∧
        g2.mahJongWish = some { wishedRank := w, mustPlay := true }) ∧
    (∀ (g : Game) (pid : String) (cards : List Card) (action : String)
        (wishArg : Option String) (wr : String) (res : MoveRes) (g2 : Game),
      makeMove (fun x => x) g pid cards action wishArg = (res, g2) →
      g.mahJongWish = some { wishedRank := wr, mustPlay := true } →
      cards.any (fun c => c.name == "mahjong") = false →
      res.success = true →
      g2.mahJongWish =
        if action ≠ "pass" ∧ (validateCombination cards).type = "single" ∧
            (cards.headD {}).type = "standard" ∧ (cards.headD {}).rank = wr
        then none else some { wishedRank := wr, mustPlay := true }) :=
  ⟨fun nr g pid cards action wishArg res g2 heq hact hmj hs he hsp hl hok =>
     makeMove_wish_requirement nr g pid cards action wishArg res g2
       heq hact hmj hs he hsp hl hok,
   fun g pid cards action wishArg wr res g2 heq hw hn hok =>
     makeMove_wish_step g pid cards action wishArg wr res g2 heq hw hn hok⟩

/-- Witness for C4: the Mah Jong opened as a single with wish "8" is
accepted and the wish recorded (`gameC4w`); and with that wish active the
accepted single standard 8 clears it while the hypotheses hold concretely
(`gameC4p`). -/
theorem C4_wish_lifecycle_witness :
    (∃ w, (some "8" : Option String) = some w ∧ validRanks.contains w = true ∧
      (makeMove (fun x => x) gameC4w "p1" [specCard "mahjong"] "play"
        (some "8")).2.mahJongWish = some { wishedRank := w, mustPlay := true }) ∧
    (makeMove (fun x => x) gameC4p "p1" [stdCard "hearts" "8"] "play" none).2.mahJongWish =
      (if "play" ≠ "pass" ∧ (validateCombination [stdCard "hearts" "8"]).type = "single" ∧
          (([stdCard "hearts" "8"] : List Card).headD {}).type = "standard" ∧
          (([stdCard "hearts" "8"] : List Card).headD {}).rank = "8"
       then none else some { wishedRank := "8", mustPlay := true }) :=
  ⟨C4_wish_lifecycle.1 (fun x => x) gameC4w "p1" [specCard "mahjong"] "play" (some "8")
      (makeMove (fun x => x) gameC4w "p1" [specCard "mahjong"] "play" (some "8")).1
      (makeMove (fun x => x) gameC4w "p1" [specCard "mahjong"] "play" (some "8")).2
      rfl (by decide) (by decide) (by decide) (by decide) (by decide) (by decide) (by decide),
   C4_wish_lifecycle.2 gameC4p "p1" [stdCard "hearts" "8"] "play" none "8"
      (makeMove (fun x => x) gameC4p "p1" [stdCard "hearts" "8"] "play" none).1
      (makeMove (fun x => x) gameC4p "p1" [stdCard "hearts" "8"] "play" none).2
      rfl (by decide) (by decide) (by decide)⟩

end Tichu
